import Mathlib

/-!
Verification of the core components of a financial-query assistant
(cache manager with Redis/in-memory fallback, ticker resolver, query
classifier, multi-agent orchestrator, comparison formatter, financial
data fetchers), shallowly embedded from the Python sources.

Conventions of the embedding:
* Python dicts with string keys are association lists updated by
  `dictInsert` (update-in-place if present, append otherwise).
* The wall clock (`datetime.now()`) is an explicit `Nat` parameter `now`
  (seconds); `timedelta(seconds=ttl)` is addition on it.
* Calls into external collaborators (Redis, yfinance, DuckDuckGo, LLM
  endpoints) are modelled by their outcomes, passed as parameters:
  an `Except` value is a call that either returned or raised.
* Numeric payload fields coming from the market-data provider are
  modelled as already-rendered strings: their float formatting is not
  part of the verified logic.
-/

set_option maxRecDepth 100000

/-- Python dict assignment `m[k] = v` on a string-keyed association list:
replaces the value in place if the key is present, appends otherwise
(preserving Python dict insertion order). -/
def dictInsert {α : Type} (m : List (String × α)) (k : String) (v : α) :
    List (String × α) :=
  if m.any (fun kv => kv.1 == k) then
    m.map (fun kv => if kv.1 == k then (k, v) else kv)
  else m ++ [(k, v)]

/-- Python `del m[k]` on an association list. -/
def dictErase {α : Type} (m : List (String × α)) (k : String) :
    List (String × α) :=
  m.filter (fun kv => kv.1 != k)

/-- `settings.CACHE_TTL` from `config/settings.py` (default `3600`). -/
def Settings.CACHE_TTL : Nat := 3600

/-- One entry of `CacheManager._in_memory_cache`: the stored value and its
absolute expiry time (`{"value": value, "expires": expires}`). -/
structure CEntry (V : Type) where
  value : V
  expires : Nat
deriving Repr, DecidableEq

/-- The mutable state of a `CacheManager`: whether `self.redis_client`
is set (a live connection) and the `_in_memory_cache` dict. -/
structure CacheState (V : Type) where
  redisConnected : Bool
  localCache : List (String × CEntry V)
deriving Repr, DecidableEq

namespace CacheManager

/-- `CacheManager.__init__` composed with `_setup_redis`: the local map
starts empty; `redis_client` is set iff the connection and ping succeed
(`redisConnectOk`), and is reset to `None` on any failure. -/
def init (V : Type) (redisConnectOk : Bool) : CacheState V :=
  { redisConnected := redisConnectOk, localCache := [] }

/-- `CacheManager.get`. With a connected Redis client the outcome of
`redis.get` plus unpickling is `redisResult` (`.error` when it raised:
the except-branch logs and returns `None`). Otherwise the local map is
consulted: a present entry is returned while `now < expires`, and is
deleted (returning `None`) once `now >= expires`. -/
def get {V : Type} (st : CacheState V) (now : Nat) (key : String)
    (redisResult : Except String (Option V)) : Option V × CacheState V :=
  if st.redisConnected then
    match redisResult with
    | .ok r => (r, st)
    | .error _ => (none, st)
  else
    match st.localCache.lookup key with
    | none => (none, st)
    | some e =>
      if now < e.expires then (some e.value, st)
      else (none, { st with localCache := dictErase st.localCache key })

/-- The expiry offset used by `CacheManager.set`: Python
`ttl or settings.CACHE_TTL`, where a `ttl` of `None` or `0` falls back
to the default TTL. -/
def effectiveTtl (ttl : Option Nat) : Nat :=
  match ttl with
  | none => Settings.CACHE_TTL
  | some t => if t = 0 then Settings.CACHE_TTL else t

/-- `CacheManager.set`. With a connected Redis client the outcome of
`setex` is `redisResult`; a raise is caught and the operation is a
no-op. Otherwise the local map stores the value with expiry
`now + (ttl or settings.CACHE_TTL)`. -/
def set {V : Type} (st : CacheState V) (now : Nat) (key : String) (value : V)
    (ttl : Option Nat) (redisResult : Except String Unit) : CacheState V :=
  if st.redisConnected then
    match redisResult with
    | .ok _ => st
    | .error _ => st
  else
    { st with localCache := dictInsert st.localCache key ⟨value, now + effectiveTtl ttl⟩ }

end CacheManager

theorem lookup_map_update {α : Type} (k : String) (v : α) :
    ∀ (m : List (String × α)), m.any (fun kv => kv.1 == k) = true →
    (m.map (fun kv => if kv.1 == k then (k, v) else kv)).lookup k = some v := by
  intro m
  induction m with
  | nil => intro h; simp at h
  | cons hd tl ih =>
    intro h
    simp only [List.map_cons]
    by_cases hk : hd.1 = k
    · rw [if_pos (beq_iff_eq.mpr hk)]
      simp [List.lookup]
    · have hb : (hd.1 == k) = false := beq_eq_false_iff_ne.mpr hk
      rw [if_neg (by simp [hb])]
      have hkh : (k == hd.1) = false := beq_eq_false_iff_ne.mpr (Ne.symm hk)
      simp only [List.lookup, hkh]
      exact ih (by simpa [List.any_cons, hb] using h)

theorem lookup_append_single {α : Type} (k : String) (v : α) :
    ∀ (m : List (String × α)), m.any (fun kv => kv.1 == k) = false →
    (m ++ [(k, v)]).lookup k = some v := by
  intro m
  induction m with
  | nil => intro _; simp [List.lookup]
  | cons hd tl ih =>
    intro h
    simp only [List.any_cons, Bool.or_eq_false_iff] at h
    have hk : k ≠ hd.1 := Ne.symm (beq_eq_false_iff_ne.mp h.1)
    simp only [List.cons_append, List.lookup, beq_eq_false_iff_ne.mpr hk]
    exact ih h.2

theorem lookup_dictInsert {α : Type} (m : List (String × α)) (k : String) (v : α) :
    (dictInsert m k v).lookup k = some v := by
  unfold dictInsert
  by_cases h : m.any (fun kv => kv.1 == k)
  · rw [if_pos h]
    exact lookup_map_update k v m h
  · rw [if_neg h]
    exact lookup_append_single k v m (Bool.of_not_eq_true h)

theorem lookup_dictErase {α : Type} (m : List (String × α)) (k : String) :
    (dictErase m k).lookup k = none := by
  unfold dictErase
  induction m with
  | nil => simp [List.lookup]
  | cons hd tl ih =>
    by_cases hk : hd.1 = k
    · rw [List.filter_cons_of_neg (by simp [bne, beq_iff_eq.mpr hk])]
      exact ih
    · rw [List.filter_cons_of_pos (by simp [bne, beq_eq_false_iff_ne.mpr hk])]
      simp only [List.lookup, beq_eq_false_iff_ne.mpr (Ne.symm hk)]
      exact ih

theorem local_set_get {V : Type} (st : CacheState V) (hredis : st.redisConnected = false)
    (now : Nat) (k : String) (v : V) (t : Option Nat)
    (rs : Except String Unit) (rr : Except String (Option V)) :
    CacheManager.get (CacheManager.set st now k v t rs) now k rr
      = (some v, CacheManager.set st now k v t rs) := by
  have hpos : 0 < CacheManager.effectiveTtl t := by
    cases t with
    | none => decide
    | some n =>
      cases n with
      | zero => decide
      | succ m => simp [CacheManager.effectiveTtl]
  have hlt : now < now + CacheManager.effectiveTtl t := Nat.lt_add_of_pos_right hpos
  simp [CacheManager.set, hredis, CacheManager.get, lookup_dictInsert, hlt]

/-- Claim C1: with the cache fallen back to the local in-memory backend,
`set k v ttl` immediately followed by `get k` returns `v`; and once the
clock reaches or passes the stored expiry, `get k` returns absent and
deletes the expired entry from the local map. -/
theorem claim_C1 {V : Type} (st : CacheState V) (hredis : st.redisConnected = false) :
    (∀ (k : String) (v : V) (t : Option Nat) (now : Nat)
       (rs : Except String Unit) (rr : Except String (Option V)),
       (CacheManager.get (CacheManager.set st now k v t rs) now k rr).1 = some v)
    ∧ (∀ (k : String) (e : CEntry V) (now : Nat) (rr : Except String (Option V)),
       st.localCache.lookup k = some e → e.expires ≤ now →
       (CacheManager.get st now k rr).1 = none ∧
       (CacheManager.get st now k rr).2.localCache.lookup k = none) := by
  constructor
  · intro k v t now rs rr
    rw [local_set_get st hredis now k v t rs rr]
  · intro k e now rr hlook hexp
    have hnot : ¬ now < e.expires := Nat.not_lt.mpr hexp
    simp [CacheManager.get, hredis, hlook, hnot, lookup_dictErase]

/-- Concrete instantiation of the two parts of claim C1. -/
theorem claim_C1_witness :
    (CacheManager.get
      (CacheManager.set (⟨false, []⟩ : CacheState Nat) 100 "k" 42 (some 60) (.ok ()))
      100 "k" (.ok none)).1 = some 42
    ∧ (CacheManager.get (⟨false, [("k", ⟨42, 160⟩)]⟩ : CacheState Nat) 160 "k" (.ok none)).1 = none
    ∧ (CacheManager.get (⟨false, [("k", ⟨42, 160⟩)]⟩ : CacheState Nat) 160 "k"
        (.ok none)).2.localCache.lookup "k" = none := by
  refine ⟨(claim_C1 (⟨false, []⟩ : CacheState Nat) rfl).1 "k" 42 (some 60) 100 (.ok ()) (.ok none),
    ((claim_C1 (⟨false, [("k", ⟨42, 160⟩)]⟩ : CacheState Nat) rfl).2 "k" ⟨42, 160⟩ 160 (.ok none)
      (by decide) (by decide)).1,
    ((claim_C1 (⟨false, [("k", ⟨42, 160⟩)]⟩ : CacheState Nat) rfl).2 "k" ⟨42, 160⟩ 160 (.ok none)
      (by decide) (by decide)).2⟩

/-- Claim C3: if the Redis connection fails at construction the manager
permanently falls back to the in-memory map: construction yields a
disconnected state; on a disconnected state `get` and `set` ignore the
Redis outcome entirely, operate on the local map, and never flip the
backend back; and on a connected state an internal store error is caught:
`get` returns absent and `set` leaves the state unchanged. -/
theorem claim_C3 {V : Type} :
    ((CacheManager.init V false).redisConnected = false
      ∧ (CacheManager.init V false).localCache = [])
    ∧ (∀ (st : CacheState V), st.redisConnected = false →
       ∀ (now : Nat) (k : String) (v : V) (t : Option Nat)
         (rr rr' : Except String (Option V)) (rs rs' : Except String Unit),
       CacheManager.get st now k rr = CacheManager.get st now k rr'
       ∧ CacheManager.set st now k v t rs = CacheManager.set st now k v t rs'
       ∧ (CacheManager.get st now k rr).2.redisConnected = false
       ∧ (CacheManager.set st now k v t rs).redisConnected = false
       ∧ (CacheManager.get (CacheManager.set st now k v t rs) now k rr).1 = some v)
    ∧ (∀ (st : CacheState V), st.redisConnected = true →
       ∀ (now : Nat) (k : String) (v : V) (t : Option Nat) (emsg : String),
       CacheManager.get st now k (.error emsg) = (none, st)
       ∧ CacheManager.set st now k v t (.error emsg) = st) := by
  refine ⟨⟨rfl, rfl⟩, ?_, ?_⟩
  · intro st hredis now k v t rr rr' rs rs'
    refine ⟨by simp [CacheManager.get, hredis], by simp [CacheManager.set, hredis], ?_, ?_,
      by rw [local_set_get st hredis now k v t rs rr]⟩
    · simp only [CacheManager.get, hredis, if_false]
      match st.localCache.lookup k with
      | none => exact hredis
      | some e =>
        by_cases h : now < e.expires
        · simp [h, hredis]
        · simp [h]
    · simp [CacheManager.set, hredis]
  · intro st hredis now k v t emsg
    exact ⟨by simp [CacheManager.get, hredis], by simp [CacheManager.set, hredis]⟩

/-- Concrete instantiation of claim C3: a failed-connection manager
serves a round-trip from the local map while ignoring Redis outcomes. -/
theorem claim_C3_witness :
    (CacheManager.get
      (CacheManager.set (CacheManager.init Nat false) 0 "q" 7 none (.error "down"))
      0 "q" (.error "down")).1 = some 7 := by
  have h := (claim_C3 (V := Nat)).2.1 (CacheManager.init Nat false) rfl 0 "q" 7 none
    (.error "down") (.error "down") (.error "down") (.error "down")
  exact h.2.2.2.2

/-! ## Key derivation: `CacheManager._generate_key`

`_generate_key(prefix, data)` serializes a non-string payload with
`json.dumps(data, sort_keys=True)` and returns
`prefix + ":" + md5(bytes).hexdigest()`. The MD5 digest and the UTF-8
encoding are implemented below in full, on `Nat` bytes reduced mod 256
and 32-bit words reduced mod 2^32. -/

/-- Reduce to a 32-bit machine word. -/
def w32 (x : Nat) : Nat := x % 4294967296

/-- 32-bit left rotation. -/
def rotl32 (x s : Nat) : Nat := w32 ((x <<< s) ||| (x >>> (32 - s)))

/-- MD5 round constants, `floor(2^32 * abs(sin(i + 1)))`. -/
def md5K : List Nat := [3614090360, 3905402710, 606105819, 3250441966, 4118548399, 1200080426, 2821735955, 4249261313, 1770035416, 2336552879, 4294925233, 2304563134, 1804603682, 4254626195, 2792965006, 1236535329, 4129170786, 3225465664, 643717713, 3921069994, 3593408605, 38016083, 3634488961, 3889429448, 568446438, 3275163606, 4107603335, 1163531501, 2850285829, 4243563512, 1735328473, 2368359562, 4294588738, 2272392833, 1839030562, 4259657740, 2763975236, 1272893353, 4139469664, 3200236656, 681279174, 3936430074, 3572445317, 76029189, 3654602809, 3873151461, 530742520, 3299628645, 4096336452, 1126891415, 2878612391, 4237533241, 1700485571, 2399980690, 4293915773, 2240044497, 1873313359, 4264355552, 2734768916, 1309151649, 4149444226, 3174756917, 718787259, 3951481745]

/-- MD5 per-round shift amounts. -/
def md5S : List Nat := [7, 12, 17, 22, 7, 12, 17, 22, 7, 12, 17, 22, 7, 12, 17, 22, 5, 9, 14, 20, 5, 9, 14, 20, 5, 9, 14, 20, 5, 9, 14, 20, 4, 11, 16, 23, 4, 11, 16, 23, 4, 11, 16, 23, 4, 11, 16, 23, 6, 10, 15, 21, 6, 10, 15, 21, 6, 10, 15, 21, 6, 10, 15, 21]

/-- MD5 nonlinear mixing function for round `i`. -/
def md5F (i b c d : Nat) : Nat :=
  if i < 16 then (b &&& c) ||| ((b ^^^ 4294967295) &&& d)
  else if i < 32 then (d &&& b) ||| ((d ^^^ 4294967295) &&& c)
  else if i < 48 then b ^^^ c ^^^ d
  else c ^^^ (b ||| (d ^^^ 4294967295))

/-- MD5 message-word index for round `i`. -/
def md5G (i : Nat) : Nat :=
  if i < 16 then i
  else if i < 32 then (5 * i + 1) % 16
  else if i < 48 then (3 * i + 5) % 16
  else (7 * i) % 16

/-- One MD5 round on the state `(a, b, c, d)`. -/
def md5Round (M : List Nat) (st : Nat × Nat × Nat × Nat) (i : Nat) :
    Nat × Nat × Nat × Nat :=
  let a := st.1
  let b := st.2.1
  let c := st.2.2.1
  let d := st.2.2.2
  let f := w32 (md5F i b c d + a + md5K.getD i 0 + M.getD (md5G i) 0)
  (d, w32 (b + rotl32 f (md5S.getD i 0)), b, c)

/-- Decode `n` little-endian 32-bit words from a byte list. -/
def bytesToWords : Nat → List Nat → List Nat
  | 0, _ => []
  | n + 1, bs =>
    (bs.getD 0 0 + bs.getD 1 0 * 256 + bs.getD 2 0 * 65536 + bs.getD 3 0 * 16777216)
      :: bytesToWords n (bs.drop 4)

/-- Process one 64-byte chunk of an MD5 computation. -/
def md5Chunk (st : Nat × Nat × Nat × Nat) (chunk : List Nat) : Nat × Nat × Nat × Nat :=
  let M := bytesToWords 16 chunk
  let r := (List.range 64).foldl (md5Round M) st
  (w32 (st.1 + r.1), w32 (st.2.1 + r.2.1), w32 (st.2.2.1 + r.2.2.1), w32 (st.2.2.2 + r.2.2.2))

/-- Split a byte list into 64-byte chunks (fuel-driven so that the
recursion stays structural and kernel-reducible). -/
def chunks64 : Nat → List Nat → List (List Nat)
  | 0, _ => []
  | _ + 1, [] => []
  | fuel + 1, l => l.take 64 :: chunks64 fuel (l.drop 64)

/-- Little-endian 8-byte encoding. -/
def le8 (n : Nat) : List Nat :=
  [n % 256, n >>> 8 % 256, n >>> 16 % 256, n >>> 24 % 256,
   n >>> 32 % 256, n >>> 40 % 256, n >>> 48 % 256, n >>> 56 % 256]

/-- MD5 padding: a `0x80` byte, zeros up to 56 mod 64, then the bit
length as a little-endian 64-bit quantity. -/
def md5Pad (bytes : List Nat) : List Nat :=
  let len := bytes.length
  bytes ++ [128] ++ List.replicate ((119 - len % 64) % 64) 0
    ++ le8 (len * 8 % 18446744073709551616)

/-- Little-endian 4-byte encoding. -/
def le4 (n : Nat) : List Nat := [n % 256, n >>> 8 % 256, n >>> 16 % 256, n >>> 24 % 256]

/-- Lowercase hexadecimal digit. -/
def hexDigit (n : Nat) : Char := if n < 10 then Char.ofNat (48 + n) else Char.ofNat (87 + n)

/-- Two lowercase hex characters for one byte. -/
def byteHexChars (b : Nat) : List Char := [hexDigit (b / 16), hexDigit (b % 16)]

/-- The 16-byte MD5 digest of a byte string. -/
def md5Bytes (bytes : List Nat) : List Nat :=
  let padded := md5Pad bytes
  let st := (chunks64 (padded.length + 1) padded).foldl md5Chunk
    (1732584193, 4023233417, 2562383102, 271733878)
  le4 st.1 ++ le4 st.2.1 ++ le4 st.2.2.1 ++ le4 st.2.2.2

/-- `hashlib.md5(bytes).hexdigest()`: the digest in lowercase hex. -/
def md5Hex (bytes : List Nat) : String :=
  ⟨((md5Bytes bytes).map byteHexChars).flatten⟩

/-- UTF-8 encoding of one character (`str.encode()` is UTF-8). -/
def utf8Bytes (c : Char) : List Nat :=
  let n := c.toNat
  if n < 128 then [n]
  else if n < 2048 then [192 ||| (n >>> 6), 128 ||| (n &&& 63)]
  else if n < 65536 then
    [224 ||| (n >>> 12), 128 ||| ((n >>> 6) &&& 63), 128 ||| (n &&& 63)]
  else
    [240 ||| (n >>> 18), 128 ||| ((n >>> 12) &&& 63), 128 ||| ((n >>> 6) &&& 63),
     128 ||| (n &&& 63)]

/-- `s.encode()`: the UTF-8 bytes of a string. -/
def strBytes (s : String) : List Nat := (s.data.map utf8Bytes).flatten

/-! ## Structured payloads and `json.dumps(data, sort_keys=True)` -/

/-- A JSON-serializable structured payload (`dict`/`list`/scalar tree).
Floats are outside the embedding; numeric leaves are integers. -/
inductive Json where
  | null
  | bool (b : Bool)
  | int (n : Int)
  | str (s : String)
  | arr (items : List Json)
  | obj (fields : List (String × Json))

/-- Four lowercase hex characters. -/
def hex4 (n : Nat) : List Char :=
  [hexDigit (n / 4096 % 16), hexDigit (n / 256 % 16), hexDigit (n / 16 % 16),
   hexDigit (n % 16)]

/-- JSON string escaping as `json.dumps` performs it with the default
`ensure_ascii=True`: quote, backslash and the named control characters
get two-character escapes, other control characters and all non-ASCII
characters become `\uXXXX` (a surrogate pair beyond the BMP). -/
def jsonEscapeChar (c : Char) : List Char :=
  if c = '"' then ['\\', '"']
  else if c = '\\' then ['\\', '\\']
  else if c = '\n' then ['\\', 'n']
  else if c = '\t' then ['\\', 't']
  else if c = '\r' then ['\\', 'r']
  else if c.toNat = 8 then ['\\', 'b']
  else if c.toNat = 12 then ['\\', 'f']
  else if c.toNat < 32 then '\\' :: 'u' :: hex4 c.toNat
  else if c.toNat < 128 then [c]
  else if c.toNat < 65536 then '\\' :: 'u' :: hex4 c.toNat
  else
    let n := c.toNat - 65536
    ('\\' :: 'u' :: hex4 (55296 + (n >>> 10))) ++ ('\\' :: 'u' :: hex4 (56320 + (n &&& 1023)))

/-- A double-quoted, escaped JSON string literal. -/
def jsonQuote (s : String) : String :=
  ⟨'"' :: (s.data.map jsonEscapeChar).flatten ++ ['"']⟩

/-- `", ".join`, the default JSON item separator. -/
def joinComma : List String → String
  | [] => ""
  | [x] => x
  | x :: y :: rest => x ++ ", " ++ joinComma (y :: rest)

/-- Comparison of rendered fields by key: `sort_keys=True` orders a
dict's items by string comparison of the keys (code-point order). -/
def pairLe (a b : String × String) : Bool := decide (a.1 ≤ b.1)

mutual

/-- `json.dumps(·, sort_keys=True, default=str)` with the default
separators `", "` and `": "`. A dict's fields are each rendered and then
emitted in sorted key order; rendering first and sorting the rendered
pairs afterwards produces the same text because the sort compares keys
only. -/
def Json.dumps : Json → String
  | .null => "null"
  | .bool b => if b then "true" else "false"
  | .int n => toString n
  | .str s => jsonQuote s
  | .arr items => "[" ++ joinComma (Json.renderList items) ++ "]"
  | .obj fields =>
    "\x7b" ++ joinComma (((Json.renderFields fields).mergeSort pairLe).map
      (fun kv => jsonQuote kv.1 ++ ": " ++ kv.2)) ++ "\x7d"

/-- The rendered elements of a JSON array. -/
def Json.renderList : List Json → List String
  | [] => []
  | x :: xs => Json.dumps x :: Json.renderList xs

/-- The fields of a JSON object with their values rendered. -/
def Json.renderFields : List (String × Json) → List (String × String)
  | [] => []
  | kv :: rest => (kv.1, Json.dumps kv.2) :: Json.renderFields rest

end

/-- Python dict keys are unique at every level of a payload that
`json.dumps` receives; this well-formedness predicate records that. -/
def nodupKeysb (fields : List (String × Json)) : Bool :=
  decide (fields.map Prod.fst).Nodup

mutual

/-- All objects in the payload have pairwise-distinct keys. -/
def Json.wfb : Json → Bool
  | .null => true
  | .bool _ => true
  | .int _ => true
  | .str _ => true
  | .arr items => Json.wfbList items
  | .obj fields => nodupKeysb fields && Json.wfbFields fields

def Json.wfbList : List Json → Bool
  | [] => true
  | x :: xs => Json.wfb x && Json.wfbList xs

def Json.wfbFields : List (String × Json) → Bool
  | [] => true
  | kv :: rest => Json.wfb kv.2 && Json.wfbFields rest

end

mutual

/-- Structural equality of payloads up to the order in which objects
list their fields (at any depth): scalars must coincide, arrays are
compared pointwise, and an object's field list may be reordered by an
arbitrary permutation after its values are related pointwise. -/
inductive JsonEquiv : Json → Json → Prop
  | null : JsonEquiv .null .null
  | bool (b : Bool) : JsonEquiv (.bool b) (.bool b)
  | int (n : Int) : JsonEquiv (.int n) (.int n)
  | str (s : String) : JsonEquiv (.str s) (.str s)
  | arr {xs ys : List Json} : JsonListEquiv xs ys → JsonEquiv (.arr xs) (.arr ys)
  | obj {xs zs ys : List (String × Json)} :
      JsonFieldsEquiv xs zs → zs.Perm ys → JsonEquiv (.obj xs) (.obj ys)

/-- Pointwise `JsonEquiv` on array elements. -/
inductive JsonListEquiv : List Json → List Json → Prop
  | nil : JsonListEquiv [] []
  | cons {x y : Json} {xs ys : List Json} :
      JsonEquiv x y → JsonListEquiv xs ys → JsonListEquiv (x :: xs) (y :: ys)

/-- Pointwise `JsonEquiv` on object fields (same keys, same order). -/
inductive JsonFieldsEquiv : List (String × Json) → List (String × Json) → Prop
  | nil : JsonFieldsEquiv [] []
  | cons {k : String} {v w : Json} {xs ys : List (String × Json)} :
      JsonEquiv v w → JsonFieldsEquiv xs ys →
      JsonFieldsEquiv ((k, v) :: xs) ((k, w) :: ys)

end

/-- The payload argument of `_generate_key`: either a raw Python string
(used unhashed as `data_str`) or a structured value (serialized by
`json.dumps` with sorted keys). -/
inductive Payload where
  | str (s : String)
  | json (j : Json)

/-- The serialized form of a payload: `data` itself when it is a string,
`json.dumps(data, sort_keys=True, default=str)` otherwise. -/
def Payload.dataStr : Payload → String
  | .str s => s
  | .json j => j.dumps

/-- `CacheManager._generate_key`:
`f"{prefix}:{hashlib.md5(data_str.encode()).hexdigest()}"`. -/
def CacheManager.generate_key (ns : String) (data : Payload) : String :=
  ns ++ ":" ++ md5Hex (strBytes data.dataStr)

theorem renderFields_eq_map (xs : List (String × Json)) :
    Json.renderFields xs = xs.map (fun kv => (kv.1, Json.dumps kv.2)) := by
  induction xs with
  | nil => rfl
  | cons hd tl ih => simp [Json.renderFields, ih]

theorem renderFields_keys (xs : List (String × Json)) :
    (Json.renderFields xs).map Prod.fst = xs.map Prod.fst := by
  induction xs with
  | nil => rfl
  | cons hd tl ih => simp [Json.renderFields, ih]

theorem mergeSort_eq_of_perm_nodupKeys (l₁ l₂ : List (String × String))
    (hp : l₁.Perm l₂) (hnd : (l₁.map Prod.fst).Nodup) :
    l₁.mergeSort pairLe = l₂.mergeSort pairLe := by
  have htrans : ∀ a b c : String × String,
      pairLe a b = true → pairLe b c = true → pairLe a c = true := by
    intro a b c hab hbc
    simp only [pairLe, decide_eq_true_eq] at hab hbc ⊢
    exact le_trans hab hbc
  have htotal : ∀ a b : String × String, (pairLe a b || pairLe b a) = true := by
    intro a b
    simp only [pairLe, Bool.or_eq_true, decide_eq_true_eq]
    exact le_total a.1 b.1
  have hstrict : ∀ (l : List (String × String)),
      List.Pairwise (fun a b => pairLe a b = true) l → (l.map Prod.fst).Nodup →
      List.Sorted (fun a b : String × String => a.1 < b.1) l := by
    intro l hle hnodup
    have hne : List.Pairwise (fun a b : String × String => a.1 ≠ b.1) l :=
      (List.pairwise_map).mp hnodup
    exact (hle.and hne).imp
      (fun h => lt_of_le_of_ne (by simpa [pairLe] using h.1) h.2)
  have hp₁ : (l₁.mergeSort pairLe).Perm l₁ := List.mergeSort_perm l₁ pairLe
  have hp₂ : (l₂.mergeSort pairLe).Perm l₂ := List.mergeSort_perm l₂ pairLe
  have hperm : (l₁.mergeSort pairLe).Perm (l₂.mergeSort pairLe) :=
    hp₁.trans (hp.trans hp₂.symm)
  have hnd₁ : ((l₁.mergeSort pairLe).map Prod.fst).Nodup :=
    ((hp₁.map Prod.fst).nodup_iff).mpr hnd
  have hnd₂ : ((l₂.mergeSort pairLe).map Prod.fst).Nodup :=
    ((hperm.map Prod.fst).nodup_iff).mp hnd₁
  haveI : IsAntisymm (String × String) (fun a b => a.1 < b.1) :=
    ⟨fun a b h1 h2 => absurd h2 (lt_asymm h1)⟩
  exact List.eq_of_perm_of_sorted hperm
    (hstrict _ (List.sorted_mergeSort htrans htotal l₁) hnd₁)
    (hstrict _ (List.sorted_mergeSort htrans htotal l₂) hnd₂)

theorem dumps_eq_of_equiv : ∀ {p q : Json}, JsonEquiv p q →
    Json.wfb p = true → Json.dumps p = Json.dumps q := by
  intro p q h
  refine @JsonEquiv.rec
    (fun p q _ => Json.wfb p = true → Json.dumps p = Json.dumps q)
    (fun xs ys _ => Json.wfbList xs = true → Json.renderList xs = Json.renderList ys)
    (fun xs zs _ => Json.wfbFields xs = true →
      Json.renderFields xs = Json.renderFields zs)
    (fun _ => rfl) (fun _ _ => rfl) (fun _ _ => rfl) (fun _ _ => rfl)
    ?_ ?_ (fun _ => rfl) ?_ (fun _ => rfl) ?_ p q h
  · intro xs ys _ ih hwf
    simp only [Json.dumps]
    rw [ih (by simpa [Json.wfb] using hwf)]
  · intro xs zs ys hfe hperm ih hwf
    simp only [Json.wfb, Bool.and_eq_true, nodupKeysb, decide_eq_true_eq] at hwf
    have hrf : Json.renderFields xs = Json.renderFields zs := ih hwf.2
    have hrp : (Json.renderFields xs).Perm (Json.renderFields ys) := by
      rw [hrf, renderFields_eq_map, renderFields_eq_map]
      exact hperm.map _
    have hndr : ((Json.renderFields xs).map Prod.fst).Nodup := by
      rw [renderFields_keys]
      exact hwf.1
    simp only [Json.dumps]
    rw [mergeSort_eq_of_perm_nodupKeys _ _ hrp hndr]
  · intro x y xs ys _ _ ih1 ih2 hwf
    simp only [Json.wfbList, Bool.and_eq_true] at hwf
    simp only [Json.renderList]
    rw [ih1 hwf.1, ih2 hwf.2]
  · intro k v w xs ys _ _ ih1 ih2 hwf
    simp only [Json.wfbFields, Bool.and_eq_true] at hwf
    simp only [Json.renderFields]
    rw [ih1 hwf.1, ih2 hwf.2]

/-- Claim C2: key derivation is deterministic: for every namespace,
structurally-equal structured payloads whose objects merely list their
fields in different orders yield the identical key, and every key has
the form `namespace ++ ":" ++ hex_digest` of the canonicalized payload.
(Identity of keys for identical inputs is immediate since the embedding
is a pure function of `(namespace, payload)`.) -/
theorem claim_C2 (ns : String) :
    (∀ p q : Json, Json.wfb p = true → JsonEquiv p q →
      CacheManager.generate_key ns (.json p) = CacheManager.generate_key ns (.json q))
    ∧ (∀ d : Payload,
      CacheManager.generate_key ns d = ns ++ ":" ++ md5Hex (strBytes d.dataStr)) := by
  constructor
  · intro p q hwf heq
    simp only [CacheManager.generate_key, Payload.dataStr]
    rw [dumps_eq_of_equiv heq hwf]
  · intro d
    rfl

/-- Concrete instantiation of claim C2: the payloads
`{"b": 1, "a": "x"}` and `{"a": "x", "b": 1}` get the same key. -/
theorem claim_C2_witness :
    Json.wfb (Json.obj [("b", .int 1), ("a", .str "x")]) = true
    ∧ CacheManager.generate_key "orchestrator" (.json (.obj [("b", .int 1), ("a", .str "x")]))
      = CacheManager.generate_key "orchestrator" (.json (.obj [("a", .str "x"), ("b", .int 1)])) :=
  ⟨by decide,
    (claim_C2 "orchestrator").1 _ _ (by decide)
      (JsonEquiv.obj
        (JsonFieldsEquiv.cons (JsonEquiv.int 1)
          (JsonFieldsEquiv.cons (JsonEquiv.str "x") JsonFieldsEquiv.nil))
        (List.Perm.swap ("a", Json.str "x") ("b", Json.int 1) []))⟩

/-! ## Ticker resolution: `SimpleFinancialAgent._extract_ticker`

The regex `\b([A-Z]{2,5})\b` searched by `re.search` matches exactly the
first maximal run of word characters that consists solely of uppercase
ASCII letters and has length 2 to 5 (a run adjacent to further word
characters has no word boundary, and a longer or shorter all-caps run
fails the quantifier with the boundary). The embedding therefore splits
the text into maximal word-character runs and takes the first such
qualifying run. Case folding is ASCII (`str.lower` also folds non-ASCII,
but every alias in the fixed table is lowercase ASCII). -/

/-- Character-wise ASCII lowercasing, `query.lower()`. -/
def pyLower (s : String) : String := ⟨s.data.map Char.toLower⟩

/-- Python substring containment `needle in hay`. -/
def containsSub (hay needle : String) : Bool := decide (needle.data <:+: hay.data)

/-- `TICKER_PATTERNS` from `agents/simple_financial_agent.py`, in dict
insertion order. -/
def TICKER_PATTERNS : List (String × String) := [
  ("nvidia", "NVDA"), ("nvda", "NVDA"),
  ("tesla", "TSLA"), ("tsla", "TSLA"),
  ("apple", "AAPL"), ("aapl", "AAPL"),
  ("microsoft", "MSFT"), ("msft", "MSFT"),
  ("amazon", "AMZN"), ("amzn", "AMZN"),
  ("google", "GOOGL"), ("googl", "GOOGL"), ("goog", "GOOGL"), ("alphabet", "GOOGL"),
  ("meta", "META"), ("facebook", "META"),
  ("netflix", "NFLX"), ("nflx", "NFLX"),
  ("amd", "AMD"),
  ("intel", "INTC"), ("intc", "INTC")]

/-- Regex word character `\w` (ASCII): letters, digits, underscore. -/
def isWordChar (c : Char) : Bool := c.isAlphanum || c = '_'

/-- Split into maximal runs of word characters; `acc` holds the current
run reversed. -/
def wordRunsAux : List Char → List Char → List (List Char)
  | [], acc => if acc.isEmpty then [] else [acc.reverse]
  | c :: cs, acc =>
    if isWordChar c then wordRunsAux cs (c :: acc)
    else if acc.isEmpty then wordRunsAux cs []
    else acc.reverse :: wordRunsAux cs []

/-- The maximal word-character runs of a text, left to right. -/
def wordRuns (l : List Char) : List (List Char) := wordRunsAux l []

/-- A word run that the regex `\b([A-Z]{2,5})\b` matches: all-uppercase
ASCII, length 2 to 5. -/
def isCapsToken (run : List Char) : Bool :=
  decide (2 ≤ run.length) && decide (run.length ≤ 5)
    && run.all (fun c => decide ('A' ≤ c) && decide (c ≤ 'Z'))

/-- `SimpleFinancialAgent._extract_ticker`: first the alias table is
scanned for a substring of the lowercased query (first match wins);
failing that, the first all-caps 2-5 letter token of the original text
is returned if it is one of the table's canonical symbol values. -/
def SimpleFinancialAgent.extract_ticker (query : String) : Option String :=
  let query_lower := pyLower query
  match TICKER_PATTERNS.find? (fun kv => containsSub query_lower kv.1) with
  | some kv => some kv.2
  | none =>
    match (wordRuns query.data).find? isCapsToken with
    | some run =>
      if TICKER_PATTERNS.any (fun kv => kv.2 == String.mk run) then some (String.mk run)
      else none
    | none => none

/-- The resolver as the specification words it (refinement reference):
identical step 1; step 2 scans all all-uppercase 2-5 letter tokens of
the original text and returns the first that is a known canonical
symbol value, rather than testing only the first such token. -/
def resolveSpec (query : String) : Option String :=
  let query_lower := pyLower query
  match TICKER_PATTERNS.find? (fun kv => containsSub query_lower kv.1) with
  | some kv => some kv.2
  | none =>
    match ((wordRuns query.data).filter isCapsToken).find?
        (fun run => TICKER_PATTERNS.any (fun kv => kv.2 == String.mk run)) with
    | some run => some (String.mk run)
    | none => none

theorem wordRunsAux_infix :
    ∀ (l acc r : List Char), r ∈ wordRunsAux l acc → r <:+: (acc.reverse ++ l) := by
  intro l
  induction l with
  | nil =>
    intro acc r hr
    by_cases h : acc.isEmpty
    · simp [wordRunsAux, h] at hr
    · have hb : acc.isEmpty = false := Bool.of_not_eq_true h
      simp [wordRunsAux, hb] at hr
      subst hr
      simp
  | cons c cs ih =>
    intro acc r hr
    by_cases hw : isWordChar c
    · simp only [wordRunsAux, hw, if_true] at hr
      have := ih (c :: acc) r hr
      simpa [List.reverse_cons, List.append_assoc] using this
    · have hwb : isWordChar c = false := Bool.of_not_eq_true hw
      by_cases he : acc.isEmpty
      · have hacc : acc = [] := List.isEmpty_iff.mp he
        subst hacc
        simp [wordRunsAux, hwb] at hr
        have h2 := ih [] r hr
        simp only [List.reverse_nil, List.nil_append] at h2 ⊢
        exact List.infix_cons h2
      · have heb : acc.isEmpty = false := Bool.of_not_eq_true he
        simp [wordRunsAux, hwb, heb] at hr
        rcases hr with hr | hr
        · subst hr
          exact ⟨[], c :: cs, by simp⟩
        · have := ih [] r hr
          simp only [List.reverse_nil, List.nil_append] at this
          have hsuf : cs <:+ acc.reverse ++ c :: cs :=
            (List.suffix_cons c cs).trans (List.suffix_append _ _)
          exact this.trans hsuf.isInfix

theorem wordRuns_infix (l r : List Char) (hr : r ∈ wordRuns l) : r <:+: l := by
  simpa using wordRunsAux_infix l [] r hr

theorem no_caps_value_of_alias_miss (q : String)
    (hf : TICKER_PATTERNS.find? (fun kv => containsSub (pyLower q) kv.1) = none) :
    ∀ run ∈ wordRuns q.data,
      TICKER_PATTERNS.any (fun kv => kv.2 == String.mk run) = false := by
  intro run hrun
  by_contra hany
  have hany' : TICKER_PATTERNS.any (fun kv => kv.2 == String.mk run) = true :=
    Bool.of_not_eq_false hany
  rcases List.any_eq_true.mp hany' with ⟨kv, hmem, hbeq⟩
  have hval : kv.2 = String.mk run := beq_iff_eq.mp hbeq
  have hrun_eq : run = kv.2.data := by rw [hval]
  have hvals : ∀ kv ∈ TICKER_PATTERNS,
      ∃ kv2 ∈ TICKER_PATTERNS, kv2.1 = pyLower kv.2 := by decide
  rcases hvals kv hmem with ⟨kv2, hmem2, hkey⟩
  have hmiss := List.find?_eq_none.mp hf kv2 hmem2
  have hinf : run <:+: q.data := wordRuns_infix q.data run hrun
  have hinf2 : run.map Char.toLower <:+: q.data.map Char.toLower :=
    List.IsInfix.map Char.toLower hinf
  apply hmiss
  have h1 : kv2.1.data = run.map Char.toLower := by
    rw [hkey, hrun_eq]
    rfl
  simp only [containsSub, h1, decide_eq_true_eq]
  exact hinf2

/-- Claim C5: ticker resolution follows the two-step algorithm of the
spec: the code's `_extract_ticker` coincides with the spec's resolver on
every input (the difference — the code tests only the first all-caps
token against the symbol values while the spec scans all of them — is
unobservable, because any query containing a canonical symbol also
contains its lowercase alias and is already resolved by step 1), and
the two quoted examples hold. -/
theorem claim_C5 :
    (∀ q : String, SimpleFinancialAgent.extract_ticker q = resolveSpec q)
    ∧ SimpleFinancialAgent.extract_ticker "What is NVIDIA\x27s price?" = some "NVDA"
    ∧ SimpleFinancialAgent.extract_ticker "general market commentary" = none := by
  refine ⟨?_, by decide, by decide⟩
  intro q
  cases hf : TICKER_PATTERNS.find? (fun kv => containsSub (pyLower q) kv.1) with
  | some kv =>
    unfold SimpleFinancialAgent.extract_ticker resolveSpec
    simp only [hf]
  | none =>
    have hno := no_caps_value_of_alias_miss q hf
    have hspec : ((wordRuns q.data).filter isCapsToken).find?
        (fun run => TICKER_PATTERNS.any (fun kv => kv.2 == String.mk run)) = none := by
      apply List.find?_eq_none.mpr
      intro run hrun
      have hrun' : run ∈ wordRuns q.data := (List.mem_filter.mp hrun).1
      simp [hno run hrun']
    unfold SimpleFinancialAgent.extract_ticker resolveSpec
    simp only [hf, hspec]
    cases hc : (wordRuns q.data).find? isCapsToken with
    | none => rfl
    | some run =>
      have hrun : run ∈ wordRuns q.data := List.mem_of_find?_eq_some hc
      simp [hno run hrun]

/-! ## Query classification: `MultiAgentOrchestrator._analyze_query` -/

/-- The fixed financial keyword list. -/
def financial_keywords : List String :=
  ["stock", "price", "share", "market", "ticker", "symbol",
   "earnings", "revenue", "profit", "dividend", "pe ratio",
   "analyst", "recommendation", "target", "fundamental",
   "action", "bourse", "cours", "résultats", "analyse"]

/-- The fixed company keyword list. -/
def company_keywords : List String :=
  ["nvidia", "nvda", "tesla", "tsla", "apple", "aapl",
   "microsoft", "msft", "amazon", "amzn", "google", "googl",
   "meta", "facebook", "netflix", "nflx", "amd", "intel", "intc"]

/-- The fixed news keyword list. -/
def news_keywords : List String :=
  ["news", "latest", "recent", "today", "breaking", "update",
   "actualité", "dernières", "récentes", "contexte", "marché"]

/-- The classification `_analyze_query` returns. -/
structure QueryAnalysis where
  needs_financial : Bool
  needs_news : Bool
deriving Repr, DecidableEq

/-- `MultiAgentOrchestrator._analyze_query`: case-insensitive substring
matching of the query against the three fixed keyword lists;
`needs_financial` is financial-or-company, `needs_news` is news. -/
def MultiAgentOrchestrator.analyze_query (query : String) : QueryAnalysis :=
  let query_lower := pyLower query
  let has_financial := financial_keywords.any (fun k => containsSub query_lower k)
  let has_company := company_keywords.any (fun k => containsSub query_lower k)
  let has_news := news_keywords.any (fun k => containsSub query_lower k)
  { needs_financial := has_financial || has_company, needs_news := has_news }

/-- Claim C6: classification is a pure, case-insensitive substring match
against the three fixed keyword lists: `needs_financial` holds iff some
financial or company keyword occurs in the lowercased query and
`needs_news` holds iff some news keyword occurs, and the two quoted
examples classify as stated. -/
theorem claim_C6 :
    (∀ q : String,
      ((MultiAgentOrchestrator.analyze_query q).needs_financial = true ↔
        ((∃ k ∈ financial_keywords, k.data <:+: (pyLower q).data)
          ∨ (∃ k ∈ company_keywords, k.data <:+: (pyLower q).data)))
      ∧ ((MultiAgentOrchestrator.analyze_query q).needs_news = true ↔
        (∃ k ∈ news_keywords, k.data <:+: (pyLower q).data)))
    ∧ MultiAgentOrchestrator.analyze_query "What is the stock price of NVIDIA?"
      = ⟨true, false⟩
    ∧ MultiAgentOrchestrator.analyze_query "Latest Tesla news" = ⟨true, true⟩ := by
  refine ⟨?_, by decide, by decide⟩
  intro q
  constructor
  · simp [MultiAgentOrchestrator.analyze_query, List.any_eq_true, containsSub]
  · simp [MultiAgentOrchestrator.analyze_query, List.any_eq_true, containsSub]

/-! ## Web search results and the financial agent

`search_web` returns a list of result dicts, or the single-element list
`[{"error": ...}]` when the provider raised. Market-data category
results are modelled as Python dicts with possibly-`None` values
(`Rec`); numeric fields hold their display-ready rendering, the float
format specs (`:,`, `:.1f`, `*100`) being outside the embedding. -/

/-- One entry of a `search_web` result list. -/
inductive SRes where
  | item (title snippet link source : String)
  | err (msg : String)
deriving Repr, DecidableEq

/-- Whether the dict carries an `"error"` key. -/
def SRes.isErr : SRes → Bool
  | .err _ => true
  | .item _ _ _ _ => false

/-- `result.get("title", "No title")`. -/
def SRes.title : SRes → String
  | .item t _ _ _ => t
  | .err _ => "No title"

/-- `result.get("snippet", "")`. -/
def SRes.snippet : SRes → String
  | .item _ s _ _ => s
  | .err _ => ""

/-- `result.get("source", "Unknown")`. -/
def SRes.source : SRes → String
  | .item _ _ _ s => s
  | .err _ => "Unknown"

/-- `not results or (len(results) == 1 and "error" in results[0])`. -/
def noUsableResults (results : List SRes) : Bool :=
  match results with
  | [] => true
  | [r] => r.isErr
  | _ => false

/-- `"\n".join(parts)`. -/
def joinNL : List String → String
  | [] => ""
  | [x] => x
  | x :: y :: rest => x ++ "\n" ++ joinNL (y :: rest)

/-- A Python dict with string keys and possibly-`None` string values. -/
abbrev Rec := List (String × Option String)

/-- `m.get(k, default)` rendered into an f-string (`None` prints as
`"None"`). -/
def pyGetStr (m : Rec) (k default : String) : String :=
  match m.lookup k with
  | none => default
  | some none => "None"
  | some (some v) => v

/-- Truthiness of `m.get(k)`: key present with a non-`None` value. -/
def pyTruthy (m : Rec) (k : String) : Bool :=
  match m.lookup k with
  | some (some _) => true
  | _ => false

/-- `"error" in m`. -/
def hasError (m : Rec) : Bool := (m.lookup "error").isSome

/-- The result of `SimpleFinancialAgent._fetch_all_data`: the four
category results (each fetcher catches internally and marks failure
with an `"error"` key; a failed news fetch yields `[{"error": ...}]`). -/
structure FinBundle where
  stock : Rec
  analysts : Rec
  fundamentals : Rec
  news : List Rec
deriving Repr, DecidableEq

/-- The agent's numbered rendering of search results
(`f"{i}. **{title}**"`, indented snippet, indented source). -/
def SimpleFinancialAgent.renderSearchItems : Nat → List SRes → List String
  | _, [] => []
  | i, r :: rest =>
    (toString i ++ ". **" ++ r.title ++ "**")
      :: ("   " ++ r.snippet)
      :: ("   Source: " ++ r.source ++ "\n")
      :: SimpleFinancialAgent.renderSearchItems (i + 1) rest

/-- `SimpleFinancialAgent._web_search_response`: the web fallback used
when no ticker resolves. -/
def SimpleFinancialAgent.web_search_response (query : String)
    (searchWeb : String → List SRes) : String :=
  let results := searchWeb query
  if noUsableResults results then
    "Could not find relevant information for your query."
  else
    joinNL ("## 🔍 Web Search Results\n"
      :: SimpleFinancialAgent.renderSearchItems 1 (results.take 5))

/-- The news filter of `_format_response`: a title that is present,
truthy, non-blank after stripping, and not `"****"`. -/
def validNewsItem (item : Rec) : Bool :=
  match item.lookup "title" with
  | some (some t) => !(t == "") && !(t.trim == "") && !(t == "****")
  | _ => false

/-- The numbered news lines of `_format_response`. -/
def SimpleFinancialAgent.renderNewsItems : Nat → List Rec → List String
  | _, [] => []
  | i, item :: rest =>
    (toString i ++ ". **" ++ pyGetStr item "title" "None" ++ "**")
      :: (if pyTruthy item "publisher" then
            [("   Publisher: " ++ pyGetStr item "publisher" "None")] else [])
      ++ SimpleFinancialAgent.renderNewsItems (i + 1) rest

/-- `SimpleFinancialAgent._format_response`: the stock section (or an
error line), a blank, the analyst section when it did not error, a
blank, the fundamentals section when it did not error, a blank, and the
filtered news section. -/
def SimpleFinancialAgent.format_response (ticker : String) (data : FinBundle) : String :=
  let stock := data.stock
  let stockPart :=
    if !(hasError stock) then
      [("## 📈 Stock Data for " ++ ticker),
       ("- **Current Price**: $" ++ pyGetStr stock "current_price" "N/A" ++ " "
         ++ pyGetStr stock "currency" "USD"),
       ("- **Day Range**: $" ++ pyGetStr stock "low" "N/A" ++ " - $"
         ++ pyGetStr stock "high" "N/A"),
       ("- **Volume**: " ++ pyGetStr stock "volume" "N/A")]
      ++ (if pyTruthy stock "market_cap" then
            [("- **Market Cap**: $" ++ pyGetStr stock "market_cap" "0")] else [])
      ++ [("- **P/E Ratio**: " ++ pyGetStr stock "pe_ratio" "N/A"),
          ("- **52-Week Range**: $" ++ pyGetStr stock "52_week_low" "N/A" ++ " - $"
            ++ pyGetStr stock "52_week_high" "N/A"),
          ("- **Data Timestamp**: " ++ pyGetStr stock "timestamp" "N/A")]
    else [("⚠️ Could not fetch stock data: " ++ pyGetStr stock "error" "None")]
  let analysts := data.analysts
  let analystPart :=
    if !(hasError analysts) then
      ["## 📊 Analyst Recommendations",
       ("- **Recommendation**: " ++ pyGetStr analysts "recommendation" "N/A"),
       ("- **Number of Analysts**: " ++ pyGetStr analysts "num_analysts" "N/A")]
      ++ (if pyTruthy analysts "target_mean" then
            [("- **Target Price (Mean)**: $" ++ pyGetStr analysts "target_mean" "N/A")]
          else [])
      ++ (if pyTruthy analysts "target_high" && pyTruthy analysts "target_low" then
            [("- **Target Range**: $" ++ pyGetStr analysts "target_low" "None" ++ " - $"
              ++ pyGetStr analysts "target_high" "None")]
          else [])
    else []
  let funds := data.fundamentals
  let fundsPart :=
    if !(hasError funds) then
      ["## 💰 Fundamentals"]
      ++ (if pyTruthy funds "profit_margins" then
            [("- **Profit Margin**: " ++ pyGetStr funds "profit_margins" "0" ++ "%")]
          else [])
      ++ (if pyTruthy funds "revenue_growth" then
            [("- **Revenue Growth**: " ++ pyGetStr funds "revenue_growth" "0" ++ "%")]
          else [])
      ++ (if pyTruthy funds "return_on_equity" then
            [("- **Return on Equity**: " ++ pyGetStr funds "return_on_equity" "0" ++ "%")]
          else [])
      ++ [("- **Debt to Equity**: " ++ pyGetStr funds "debt_to_equity" "N/A")]
    else []
  let valid_news := data.news.filter validNewsItem
  let newsPart :=
    if !valid_news.isEmpty then
      "## 📰 Recent News (yfinance)"
        :: SimpleFinancialAgent.renderNewsItems 1 (valid_news.take 3)
    else []
  joinNL (stockPart ++ [""] ++ analystPart ++ [""] ++ fundsPart ++ [""] ++ newsPart)

/-- `SimpleFinancialAgent.query`: resolve the ticker; with none, fall
back to a web search response; otherwise fetch all four categories
(outcomes given by `fin`) and format them. -/
def SimpleFinancialAgent.query (q : String) (fin : String → FinBundle)
    (searchWeb : String → List SRes) : String :=
  match SimpleFinancialAgent.extract_ticker q with
  | none => SimpleFinancialAgent.web_search_response q searchWeb
  | some ticker => SimpleFinancialAgent.format_response ticker (fin ticker)

/-! ## The orchestrator: `MultiAgentOrchestrator` -/

/-- The outcomes of the external collaborators a single orchestrated
query consults: per-ticker market data, web search, the two LLM calls
(synthesis and single-source reformat; their prompt texts affect only
which outcome occurs), and the Redis operations. -/
structure Oracles where
  finBundle : String → FinBundle
  searchWeb : String → List SRes
  synthesisLlm : Except String String
  reformatLlm : Except String String
  redisGet : Except String (Option String)
  redisSet : Except String Unit

/-- `MultiAgentOrchestrator._simplify_query`: replace a query that
mentions a known company by a canned search term; otherwise pass the
query through. -/
def MultiAgentOrchestrator.simplify_query (query : String) : String :=
  let companies : List (String × String) := [
    ("aapl", "AAPL Apple stock news 2024"),
    ("apple", "AAPL Apple stock news 2024"),
    ("nvda", "NVDA NVIDIA stock news 2024"),
    ("nvidia", "NVDA NVIDIA stock news 2024"),
    ("tsla", "TSLA Tesla stock news 2024"),
    ("tesla", "TSLA Tesla stock news 2024"),
    ("msft", "MSFT Microsoft stock news 2024"),
    ("googl", "GOOGL Google stock news 2024"),
    ("amzn", "AMZN Amazon stock news 2024"),
    ("meta", "META stock news 2024"),
    ("amd", "AMD stock news 2024"),
    ("intel", "INTC Intel stock news 2024")]
  match companies.find? (fun kv => containsSub (pyLower query) kv.1) with
  | some kv => kv.2
  | none => query

/-- The orchestrator's numbered rendering of search results
(`f"{i}. {title}"`, indented snippet, indented source). -/
def MultiAgentOrchestrator.renderWebItems : Nat → List SRes → List String
  | _, [] => []
  | i, r :: rest =>
    (toString i ++ ". " ++ r.title)
      :: ("   " ++ r.snippet)
      :: ("   Source: " ++ r.source)
      :: MultiAgentOrchestrator.renderWebItems (i + 1) rest

/-- `MultiAgentOrchestrator._fetch_web_data`: search with the
simplified query; an empty or error-only result list yields the empty
block, otherwise the top five results are formatted. -/
def MultiAgentOrchestrator.fetch_web_data (query : String)
    (searchWeb : String → List SRes) : String :=
  let results := searchWeb (MultiAgentOrchestrator.simplify_query query)
  if noUsableResults results then ""
  else joinNL (MultiAgentOrchestrator.renderWebItems 1 (results.take 5))

/-- `MultiAgentOrchestrator._format_fallback`: the deterministic
concatenation of the labeled non-empty blocks with the fixed
source-attribution footer. -/
def MultiAgentOrchestrator.format_fallback (financial_data web_data : String) : String :=
  joinNL
    ((if financial_data != "" then
        ["## 📊 Données Financières (yfinance API)", financial_data] else [])
      ++ (if web_data != "" then
        ["\n## 📰 Actualités (DuckDuckGo)", web_data] else [])
      ++ ["\n---",
          "*Sources: yfinance API (données en temps réel), DuckDuckGo (actualités)*"])

/-- `MultiAgentOrchestrator._strict_synthesis`: the LLM call's content
on success, the deterministic fallback when it raises. -/
def MultiAgentOrchestrator.strict_synthesis (financial_data web_data : String)
    (llm : Except String String) : String :=
  match llm with
  | .ok content => content
  | .error _ => MultiAgentOrchestrator.format_fallback financial_data web_data

/-- `MultiAgentOrchestrator._reformat_data`: the LLM call's content on
success, the raw block unchanged when it raises. -/
def MultiAgentOrchestrator.reformat_data (data : String)
    (llm : Except String String) : String :=
  match llm with
  | .ok content => content
  | .error _ => data

/-- The financial text block of one orchestrated query: fetched via the
financial agent exactly when classification sets `needs_financial`. -/
def MultiAgentOrchestrator.financialBlock (q : String) (o : Oracles) : String :=
  if (MultiAgentOrchestrator.analyze_query q).needs_financial then
    SimpleFinancialAgent.query q o.finBundle o.searchWeb
  else ""

/-- The web text block of one orchestrated query: fetched exactly when
`needs_news` holds or `needs_financial` does not. -/
def MultiAgentOrchestrator.webBlock (q : String) (o : Oracles) : String :=
  if (MultiAgentOrchestrator.analyze_query q).needs_news
      || !(MultiAgentOrchestrator.analyze_query q).needs_financial then
    MultiAgentOrchestrator.fetch_web_data q o.searchWeb
  else ""

/-- What one orchestrated query produced and which sources it consulted. -/
structure OrchOutcome where
  response : String
  fetchedFinancial : Bool
  fetchedWeb : Bool
deriving Repr, DecidableEq

/-- The body of `MultiAgentOrchestrator.query` after the cache check:
fetch the blocks per the classification, then combine — synthesis when
both blocks are non-empty, reformat when exactly one is, the fixed
message when both are empty. -/
def MultiAgentOrchestrator.run_query_body (q : String) (o : Oracles) : OrchOutcome :=
  let analysis := MultiAgentOrchestrator.analyze_query q
  let financial_data := MultiAgentOrchestrator.financialBlock q o
  let web_data := MultiAgentOrchestrator.webBlock q o
  let response :=
    if financial_data != "" && web_data != "" then
      MultiAgentOrchestrator.strict_synthesis financial_data web_data o.synthesisLlm
    else if financial_data != "" then
      MultiAgentOrchestrator.reformat_data financial_data o.reformatLlm
    else if web_data != "" then
      MultiAgentOrchestrator.reformat_data web_data o.reformatLlm
    else "Could not find relevant information."
  ⟨response, analysis.needs_financial, analysis.needs_news || !analysis.needs_financial⟩

/-- `MultiAgentOrchestrator.query`: a cache check under the key derived
from `("orchestrator", query)` — a cached response is returned as a hit
only when truthy (non-empty, Python `if cached:`) — then the query body,
whose response is stored under the same key with the default TTL. The
returned flag records whether the call was served from the cache. -/
def MultiAgentOrchestrator.query (q : String) (st : CacheState String) (now : Nat)
    (o : Oracles) : String × CacheState String × Bool :=
  let key := CacheManager.generate_key "orchestrator" (.str q)
  let res := CacheManager.get st now key o.redisGet
  match res.1 with
  | some c =>
    if c != "" then (c, res.2, true)
    else
      let r := (MultiAgentOrchestrator.run_query_body q o).response
      (r, CacheManager.set res.2 now key r (some Settings.CACHE_TTL) o.redisSet, false)
  | none =>
    let r := (MultiAgentOrchestrator.run_query_body q o).response
    (r, CacheManager.set res.2 now key r (some Settings.CACHE_TTL) o.redisSet, false)

theorem joinNL_cons_ne (x : String) (rest : List String) (hx : x ≠ "") :
    joinNL (x :: rest) ≠ "" := by
  cases rest with
  | nil => simpa [joinNL] using hx
  | cons y t =>
    simp only [joinNL]
    intro h
    have hd := congrArg String.data h
    simp only [String.data_append] at hd
    exact absurd hd (by simp)

theorem web_search_response_ne (q : String) (sw : String → List SRes) :
    SimpleFinancialAgent.web_search_response q sw ≠ "" := by
  unfold SimpleFinancialAgent.web_search_response
  by_cases h : noUsableResults (sw q)
  · simp only [h, if_true]
    decide
  · simp only [h, if_false]
    exact joinNL_cons_ne _ _ (by decide)

/-- Orchestrator oracle with no usable collaborator data: empty market
bundles and an empty search result list. -/
def emptyOracles : Oracles :=
  ⟨fun _ => ⟨[], [], [], []⟩, fun _ => [], .ok "", .ok "", .ok none, .ok ()⟩

/-- Claim C4 is refuted on the financial-step-empty conjunct: on the
query "stock market outlook", classification sets `needs_financial` and
no ticker resolves, yet the financial step is non-empty — the agent
falls back to a web search response (here the fixed
no-information message) instead of yielding an empty block. -/
theorem claim_C4_counterexample :
    (MultiAgentOrchestrator.analyze_query "stock market outlook").needs_financial = true
    ∧ SimpleFinancialAgent.extract_ticker "stock market outlook" = none
    ∧ MultiAgentOrchestrator.financialBlock "stock market outlook" emptyOracles ≠ "" := by
  decide

/-- Claim C4 (amended): the orchestrator fetches financial data exactly
when classification yields `needs_financial`; when no ticker resolves
the financial step yields the agent's (always non-empty) web-search
fallback response rather than an empty block; the web search is
performed exactly when `needs_news` holds or `needs_financial` does
not; and when both text blocks are empty the fixed no-information
message is returned. -/
theorem claim_C4 (q : String) (o : Oracles) :
    ((MultiAgentOrchestrator.run_query_body q o).fetchedFinancial
      = (MultiAgentOrchestrator.analyze_query q).needs_financial)
    ∧ ((MultiAgentOrchestrator.run_query_body q o).fetchedWeb
      = ((MultiAgentOrchestrator.analyze_query q).needs_news
          || !(MultiAgentOrchestrator.analyze_query q).needs_financial))
    ∧ (SimpleFinancialAgent.extract_ticker q = none →
       (MultiAgentOrchestrator.analyze_query q).needs_financial = true →
       MultiAgentOrchestrator.financialBlock q o
         = SimpleFinancialAgent.web_search_response q o.searchWeb
       ∧ MultiAgentOrchestrator.financialBlock q o ≠ "")
    ∧ (MultiAgentOrchestrator.financialBlock q o = "" →
       MultiAgentOrchestrator.webBlock q o = "" →
       (MultiAgentOrchestrator.run_query_body q o).response
         = "Could not find relevant information.") := by
  refine ⟨rfl, rfl, ?_, ?_⟩
  · intro ht hf
    unfold MultiAgentOrchestrator.financialBlock
    rw [hf]
    simp only [if_true]
    unfold SimpleFinancialAgent.query
    rw [ht]
    exact ⟨rfl, web_search_response_ne q o.searchWeb⟩
  · intro hfin hweb
    simp [MultiAgentOrchestrator.run_query_body, hfin, hweb]

/-- Concrete instantiation of the two conditional parts of claim C4:
"stock market outlook" resolves no ticker yet yields a non-empty
financial block, and a query with no data at all gets the fixed
message. -/
theorem claim_C4_witness :
    (MultiAgentOrchestrator.financialBlock "stock market outlook" emptyOracles
       = SimpleFinancialAgent.web_search_response "stock market outlook"
           emptyOracles.searchWeb
     ∧ MultiAgentOrchestrator.financialBlock "stock market outlook" emptyOracles ≠ "")
    ∧ (MultiAgentOrchestrator.run_query_body "bonjour" emptyOracles).response
      = "Could not find relevant information." :=
  ⟨(claim_C4 "stock market outlook" emptyOracles).2.2.1 (by decide) (by decide),
   (claim_C4 "bonjour" emptyOracles).2.2.2 (by decide) (by decide)⟩

/-- Claim C7: in the combine step, with both blocks non-empty and a
raising synthesis call the result is `_format_fallback` — the
deterministic concatenation of the two labeled blocks with the fixed
source footer (spelled out in the second conjunct) — and with exactly
one non-empty block and a raising reformat call the raw block is
returned unchanged. -/
theorem claim_C7 (q : String) (o : Oracles) (e1 e2 : String)
    (hs : o.synthesisLlm = .error e1) (hr : o.reformatLlm = .error e2) :
    (MultiAgentOrchestrator.financialBlock q o ≠ "" →
     MultiAgentOrchestrator.webBlock q o ≠ "" →
     (MultiAgentOrchestrator.run_query_body q o).response
       = MultiAgentOrchestrator.format_fallback
           (MultiAgentOrchestrator.financialBlock q o)
           (MultiAgentOrchestrator.webBlock q o))
    ∧ (∀ f w : String, f ≠ "" → w ≠ "" →
       MultiAgentOrchestrator.format_fallback f w
         = joinNL ["## 📊 Données Financières (yfinance API)", f,
             "\n## 📰 Actualités (DuckDuckGo)", w, "\n---",
             "*Sources: yfinance API (données en temps réel), DuckDuckGo (actualités)*"])
    ∧ (MultiAgentOrchestrator.financialBlock q o ≠ "" →
       MultiAgentOrchestrator.webBlock q o = "" →
       (MultiAgentOrchestrator.run_query_body q o).response
         = MultiAgentOrchestrator.financialBlock q o)
    ∧ (MultiAgentOrchestrator.financialBlock q o = "" →
       MultiAgentOrchestrator.webBlock q o ≠ "" →
       (MultiAgentOrchestrator.run_query_body q o).response
         = MultiAgentOrchestrator.webBlock q o) := by
  refine ⟨?_, ?_, ?_, ?_⟩
  · intro h1 h2
    simp [MultiAgentOrchestrator.run_query_body, bne_iff_ne.mpr h1, bne_iff_ne.mpr h2,
      hs, MultiAgentOrchestrator.strict_synthesis]
  · intro f w h1 h2
    simp [MultiAgentOrchestrator.format_fallback, bne_iff_ne.mpr h1, bne_iff_ne.mpr h2]
  · intro h1 h2
    simp [MultiAgentOrchestrator.run_query_body, bne_iff_ne.mpr h1, h2,
      hr, MultiAgentOrchestrator.reformat_data]
  · intro h1 h2
    simp [MultiAgentOrchestrator.run_query_body, h1, bne_iff_ne.mpr h2,
      hr, MultiAgentOrchestrator.reformat_data]

/-- Orchestrator oracle whose LLM calls raise, with market data erroring
and one usable search result. -/
def failingLlmOracles : Oracles :=
  ⟨fun _ => ⟨[("error", some "x")], [("error", some "x")], [("error", some "x")], []⟩,
   fun _ => [SRes.item "T" "S" "L" "Src"],
   .error "boom", .error "boom2", .ok none, .ok ()⟩

/-- Concrete instantiation of claim C7 on "nvidia news" (both blocks
non-empty, synthesis raises) and "nvidia price" (only the financial
block, reformat raises). -/
theorem claim_C7_witness :
    ((MultiAgentOrchestrator.run_query_body "nvidia news" failingLlmOracles).response
      = MultiAgentOrchestrator.format_fallback
          (MultiAgentOrchestrator.financialBlock "nvidia news" failingLlmOracles)
          (MultiAgentOrchestrator.webBlock "nvidia news" failingLlmOracles))
    ∧ ((MultiAgentOrchestrator.run_query_body "nvidia price" failingLlmOracles).response
      = MultiAgentOrchestrator.financialBlock "nvidia price" failingLlmOracles) :=
  ⟨(claim_C7 "nvidia news" failingLlmOracles "boom" "boom2" rfl rfl).1
     (by decide) (by decide),
   (claim_C7 "nvidia price" failingLlmOracles "boom" "boom2" rfl rfl).2.2.1
     (by decide) (by decide)⟩

theorem set_redisConnected {V : Type} (st : CacheState V) (now : Nat) (k : String)
    (v : V) (t : Option Nat) (rs : Except String Unit) :
    (CacheManager.set st now k v t rs).redisConnected = st.redisConnected := by
  cases hb : st.redisConnected with
  | false => simp [CacheManager.set, hb]
  | true =>
    simp only [CacheManager.set, hb, if_true]
    cases rs <;> exact hb

theorem orch_requery_after_set (q : String) (o : Oracles) (stb : CacheState String)
    (now : Nat) (hredis : stb.redisConnected = false) :
    (MultiAgentOrchestrator.query q
      (CacheManager.set stb now (CacheManager.generate_key "orchestrator" (.str q))
        (MultiAgentOrchestrator.run_query_body q o).response (some Settings.CACHE_TTL)
        o.redisSet) now o).1
      = (MultiAgentOrchestrator.run_query_body q o).response
    ∧ ((MultiAgentOrchestrator.run_query_body q o).response ≠ "" →
      (MultiAgentOrchestrator.query q
        (CacheManager.set stb now (CacheManager.generate_key "orchestrator" (.str q))
          (MultiAgentOrchestrator.run_query_body q o).response (some Settings.CACHE_TTL)
          o.redisSet) now o).2.2 = true) := by
  have hg2 := local_set_get stb hredis now
    (CacheManager.generate_key "orchestrator" (.str q))
    (MultiAgentOrchestrator.run_query_body q o).response
    (some Settings.CACHE_TTL) o.redisSet o.redisGet
  by_cases hr : (MultiAgentOrchestrator.run_query_body q o).response = ""
  · rw [hr] at hg2 ⊢
    refine ⟨?_, fun h => absurd rfl h⟩
    simp [MultiAgentOrchestrator.query, hg2, hr]
  · refine ⟨?_, fun _ => ?_⟩
    · simp [MultiAgentOrchestrator.query, hg2, bne_iff_ne.mpr hr]
    · simp [MultiAgentOrchestrator.query, hg2, bne_iff_ne.mpr hr]

/-- Claim C9 is refuted on the cache-hit conjunct: on the query "hello"
with a reformat call that succeeds with empty content, the first call
returns the empty string; it is stored, but Python's `if cached:`
treats the empty cached value as falsy, so the second call is NOT a
cache hit (it recomputes — still returning the byte-identical empty
response). -/
theorem claim_C9_counterexample :
    (MultiAgentOrchestrator.query "hello" (CacheManager.init String false) 0
      ⟨fun _ => ⟨[], [], [], []⟩, fun _ => [SRes.item "T" "S" "L" "Src"],
        .ok "", .ok "", .ok none, .ok ()⟩).1 = ""
    ∧ (MultiAgentOrchestrator.query "hello"
        (MultiAgentOrchestrator.query "hello" (CacheManager.init String false) 0
          ⟨fun _ => ⟨[], [], [], []⟩, fun _ => [SRes.item "T" "S" "L" "Src"],
            .ok "", .ok "", .ok none, .ok ()⟩).2.1 0
        ⟨fun _ => ⟨[], [], [], []⟩, fun _ => [SRes.item "T" "S" "L" "Src"],
          .ok "", .ok "", .ok none, .ok ()⟩).1 = ""
    ∧ (MultiAgentOrchestrator.query "hello"
        (MultiAgentOrchestrator.query "hello" (CacheManager.init String false) 0
          ⟨fun _ => ⟨[], [], [], []⟩, fun _ => [SRes.item "T" "S" "L" "Src"],
            .ok "", .ok "", .ok none, .ok ()⟩).2.1 0
        ⟨fun _ => ⟨[], [], [], []⟩, fun _ => [SRes.item "T" "S" "L" "Src"],
          .ok "", .ok "", .ok none, .ok ()⟩).2.2 = false := by
  decide

/-- Claim C9 (amended): with deterministic collaborators and an
unmodified cache, issuing the same query twice returns byte-identical
responses; the second call is a cache hit whenever the first response
is non-empty (an empty first response is stored but read back as falsy
by `if cached:`, so the second call recomputes — to the identical
response). -/
theorem claim_C9 (q : String) (o : Oracles) (st : CacheState String) (now : Nat)
    (hredis : st.redisConnected = false) :
    ((MultiAgentOrchestrator.query q
        (MultiAgentOrchestrator.query q st now o).2.1 now o).1
      = (MultiAgentOrchestrator.query q st now o).1)
    ∧ ((MultiAgentOrchestrator.query q st now o).1 ≠ "" →
      (MultiAgentOrchestrator.query q
        (MultiAgentOrchestrator.query q st now o).2.1 now o).2.2 = true) := by
  cases hlook : st.localCache.lookup (CacheManager.generate_key "orchestrator" (.str q)) with
  | none =>
    have hg : CacheManager.get st now
        (CacheManager.generate_key "orchestrator" (.str q)) o.redisGet = (none, st) := by
      simp [CacheManager.get, hredis, hlook]
    have h1 : MultiAgentOrchestrator.query q st now o
        = ((MultiAgentOrchestrator.run_query_body q o).response,
           CacheManager.set st now (CacheManager.generate_key "orchestrator" (.str q))
             (MultiAgentOrchestrator.run_query_body q o).response
             (some Settings.CACHE_TTL) o.redisSet, false) := by
      simp [MultiAgentOrchestrator.query, hg]
    rw [h1]
    exact orch_requery_after_set q o st now hredis
  | some e =>
    by_cases hexp : now < e.expires
    · have hg : CacheManager.get st now
          (CacheManager.generate_key "orchestrator" (.str q)) o.redisGet
          = (some e.value, st) := by
        simp [CacheManager.get, hredis, hlook, hexp]
      by_cases hce : e.value = ""
      · have h1 : MultiAgentOrchestrator.query q st now o
            = ((MultiAgentOrchestrator.run_query_body q o).response,
               CacheManager.set st now (CacheManager.generate_key "orchestrator" (.str q))
                 (MultiAgentOrchestrator.run_query_body q o).response
                 (some Settings.CACHE_TTL) o.redisSet, false) := by
          simp [MultiAgentOrchestrator.query, hg, hce]
        rw [h1]
        exact orch_requery_after_set q o st now hredis
      · have h1 : MultiAgentOrchestrator.query q st now o = (e.value, st, true) := by
          simp [MultiAgentOrchestrator.query, hg, bne_iff_ne.mpr hce]
        rw [h1]
        constructor
        · rw [h1]
        · intro _
          rw [h1]
    · have hg : CacheManager.get st now
          (CacheManager.generate_key "orchestrator" (.str q)) o.redisGet
          = (none, { st with localCache :=
              (dictErase st.localCache (CacheManager.generate_key "orchestrator" (.str q))) }) := by
        simp [CacheManager.get, hredis, hlook, hexp]
      have h1 : MultiAgentOrchestrator.query q st now o
          = ((MultiAgentOrchestrator.run_query_body q o).response,
             CacheManager.set
               { st with localCache :=
                 (dictErase st.localCache (CacheManager.generate_key "orchestrator" (.str q))) }
               now (CacheManager.generate_key "orchestrator" (.str q))
               (MultiAgentOrchestrator.run_query_body q o).response
               (some Settings.CACHE_TTL) o.redisSet, false) := by
        simp [MultiAgentOrchestrator.query, hg]
      rw [h1]
      exact orch_requery_after_set q o
        { st with localCache :=
          (dictErase st.localCache (CacheManager.generate_key "orchestrator" (.str q))) } now hredis

/-- Concrete instantiation of claim C9: a repeated query over the
fallback cache returns the identical response, and the second call is a
hit because the first response is non-empty. -/
theorem claim_C9_witness :
    ((MultiAgentOrchestrator.query "bonjour"
        (MultiAgentOrchestrator.query "bonjour" (CacheManager.init String false) 5
          emptyOracles).2.1 5 emptyOracles).1
      = (MultiAgentOrchestrator.query "bonjour" (CacheManager.init String false) 5
          emptyOracles).1)
    ∧ (MultiAgentOrchestrator.query "bonjour"
        (MultiAgentOrchestrator.query "bonjour" (CacheManager.init String false) 5
          emptyOracles).2.1 5 emptyOracles).2.2 = true :=
  ⟨(claim_C9 "bonjour" emptyOracles (CacheManager.init String false) 5 rfl).1,
   (claim_C9 "bonjour" emptyOracles (CacheManager.init String false) 5 rfl).2
     (by decide)⟩

/-! ## Stock comparison: `compare_stocks` and `_format_comparison`

The `format_func` lambdas of `get_val` perform float formatting
(`:.2f`, `:,`, the T/B market-cap split, `*100:.1f%`); they are
parameters of the embedding (`CompareFmts`), and the proved properties
hold for all of them. -/

/-- `all_data[ticker]`: either a `_fetch_all_data` bundle or the
`{"error": str(e)}` dict stored when that call raised. -/
inductive TickerBundle where
  | bundle (b : FinBundle)
  | berr (msg : String)
deriving Repr, DecidableEq

/-- `all_data[ticker].get(key, {})` for the three dict-valued category
keys `get_val` is called with (an outer-error entry has none of them,
so the default `{}` is returned). -/
def TickerBundle.catGet : TickerBundle → String → Rec
  | .bundle b, "stock" => b.stock
  | .bundle b, "analysts" => b.analysts
  | .bundle b, "fundamentals" => b.fundamentals
  | .bundle _, _ => []
  | .berr _, _ => []

/-- `get_val` of `_format_comparison`: `"Error"` for a category whose
fetch failed, `"N/A"` for an absent ticker or field or a `None`/"N/A"
value, otherwise the formatted value (any raise inside is caught as
`"N/A"`; the embedding's functions are total). -/
def get_val (all_data : List (String × TickerBundle)) (ticker key subkey : String)
    (fmt : String → String) : String :=
  match all_data.lookup ticker with
  | none => "N/A"
  | some tb =>
    let data := tb.catGet key
    if hasError data then "Error"
    else
      match data.lookup subkey with
      | none => "N/A"
      | some none => "N/A"
      | some (some v) => if v == "N/A" then "N/A" else fmt v

/-- The float-format lambdas of `_format_comparison`, abstracted. -/
structure CompareFmts where
  price : String → String
  volume : String → String
  marketCap : String → String
  pe : String → String
  week52 : String → String
  percent : String → String
  debt : String → String
  target : String → String

/-- A row of the Current Prices table. -/
def priceRow (all_data : List (String × TickerBundle)) (fmts : CompareFmts)
    (t : String) : String :=
  let price := get_val all_data t "stock" "current_price" fmts.price
  let currency := get_val all_data t "stock" "currency" id
  let low := get_val all_data t "stock" "low" fmts.price
  let high := get_val all_data t "stock" "high" fmts.price
  let volume := get_val all_data t "stock" "volume" fmts.volume
  let day_change := if low != "N/A" && high != "N/A" then low ++ " - " ++ high else "N/A"
  ("| " ++ t ++ " | ") ++ (price ++ " " ++ currency ++ " | " ++ day_change ++ " | "
    ++ volume ++ " |")

/-- A row of the Market Cap & Valuation table. -/
def valuationRow (all_data : List (String × TickerBundle)) (fmts : CompareFmts)
    (t : String) : String :=
  let market_cap := get_val all_data t "stock" "market_cap" fmts.marketCap
  let pe := get_val all_data t "stock" "pe_ratio" fmts.pe
  let low_52 := get_val all_data t "stock" "52_week_low" fmts.week52
  let high_52 := get_val all_data t "stock" "52_week_high" fmts.week52
  let range_52 := if low_52 != "N/A" then low_52 ++ " - " ++ high_52 else "N/A"
  ("| " ++ t ++ " | ") ++ (market_cap ++ " | " ++ pe ++ " | " ++ range_52 ++ " |")

/-- A row of the Fundamentals table. -/
def fundamentalsRow (all_data : List (String × TickerBundle)) (fmts : CompareFmts)
    (t : String) : String :=
  let profit := get_val all_data t "fundamentals" "profit_margins" fmts.percent
  let revenue := get_val all_data t "fundamentals" "revenue_growth" fmts.percent
  let roe := get_val all_data t "fundamentals" "return_on_equity" fmts.percent
  let debt := get_val all_data t "fundamentals" "debt_to_equity" fmts.debt
  ("| " ++ t ++ " | ") ++ (profit ++ " | " ++ revenue ++ " | " ++ roe ++ " | " ++ debt ++ " |")

/-- A row of the Analyst Recommendations table. -/
def analystRow (all_data : List (String × TickerBundle)) (fmts : CompareFmts)
    (t : String) : String :=
  let rec_ := get_val all_data t "analysts" "recommendation" id
  let target := get_val all_data t "analysts" "target_mean" fmts.target
  let num := get_val all_data t "analysts" "num_analysts" id
  ("| " ++ t ++ " | ") ++ (rec_ ++ " | " ++ target ++ " | " ++ num ++ " |")

/-- `SimpleFinancialAgent._format_comparison`: the five-section tabular
report over the keys of `all_data`. -/
def SimpleFinancialAgent.format_comparison (all_data : List (String × TickerBundle))
    (fmts : CompareFmts) : String :=
  let tickers := all_data.map Prod.fst
  joinNL (["# 📊 Stock Comparison\n",
    "## 💰 Current Prices",
    "| Ticker | Price | Day Change | Volume |",
    "|--------|-------|------------|--------|"]
    ++ tickers.map (priceRow all_data fmts)
    ++ [""]
    ++ ["## 📈 Market Cap & Valuation",
        "| Ticker | Market Cap | P/E Ratio | 52-Week Range |",
        "|--------|------------|-----------|---------------|"]
    ++ tickers.map (valuationRow all_data fmts)
    ++ [""]
    ++ ["## 💼 Fundamentals",
        "| Ticker | Profit Margin | Revenue Growth | ROE | Debt/Equity |",
        "|--------|---------------|----------------|-----|-------------|"]
    ++ tickers.map (fundamentalsRow all_data fmts)
    ++ [""]
    ++ ["## 🎯 Analyst Recommendations",
        "| Ticker | Recommendation | Target Price | # Analysts |",
        "|--------|----------------|--------------|------------|"]
    ++ tickers.map (analystRow all_data fmts)
    ++ ["\n---", "*Data source: yfinance API (real-time)*"])

/-- Character-wise ASCII uppercasing, `ticker.upper()`. -/
def pyUpper (s : String) : String := ⟨s.data.map Char.toUpper⟩

/-- `SimpleFinancialAgent.compare_stocks`: reject fewer than 2 or more
than 5 tickers with a user-facing string; otherwise fetch every
uppercased ticker (outcomes given by `fetch`, a raise stored as an
`{"error": ...}` entry) into a dict and format the comparison. -/
def SimpleFinancialAgent.compare_stocks (tickers : List String)
    (fetch : String → TickerBundle) (fmts : CompareFmts) : String :=
  if tickers.isEmpty || tickers.length < 2 then
    "Please provide at least 2 tickers to compare."
  else if 5 < tickers.length then
    "Maximum 5 tickers allowed for comparison."
  else
    SimpleFinancialAgent.format_comparison
      (tickers.foldl (fun m t => dictInsert m (pyUpper t) (fetch (pyUpper t))) []) fmts

theorem mem_joinNL_infix (s : String) :
    ∀ (parts : List String), s ∈ parts → s.data <:+: (joinNL parts).data := by
  intro parts
  induction parts with
  | nil => intro h; simp at h
  | cons x rest ih =>
    intro h
    cases rest with
    | nil =>
      simp only [List.mem_singleton] at h
      subst h
      simp [joinNL]
    | cons y t =>
      rcases List.mem_cons.mp h with h | h
      · subst h
        exact ⟨[], ("\n" ++ joinNL (y :: t)).data, by
          simp [joinNL, String.data_append, List.append_assoc]⟩
      · have hsuf : (joinNL (y :: t)).data <:+ (joinNL (x :: y :: t)).data :=
          ⟨x.data ++ '\n' :: [], by
            simp [joinNL, String.data_append, List.append_assoc]⟩
        exact (ih h).trans hsuf.isInfix

theorem prefix_infix_append (a b : String) : a.data <:+: (a ++ b).data :=
  ⟨[], b.data, by simp [String.data_append]⟩

theorem keys_dictInsert_self {α : Type} (m : List (String × α)) (k : String) (v : α) :
    k ∈ (dictInsert m k v).map Prod.fst := by
  unfold dictInsert
  by_cases h : m.any (fun kv => kv.1 == k)
  · rw [if_pos h]
    rcases List.any_eq_true.mp h with ⟨kv, hmem, hb⟩
    refine List.mem_map.mpr ⟨(k, v), List.mem_map.mpr ⟨kv, hmem, ?_⟩, rfl⟩
    simp [hb]
  · rw [if_neg h]
    simp

theorem keys_dictInsert_mono {α : Type} (m : List (String × α)) (k k2 : String) (v : α)
    (h : k2 ∈ m.map Prod.fst) : k2 ∈ (dictInsert m k v).map Prod.fst := by
  unfold dictInsert
  by_cases hh : m.any (fun kv => kv.1 == k)
  · rw [if_pos hh]
    rcases List.mem_map.mp h with ⟨kv, hmem, hfst⟩
    by_cases hk : (kv.1 == k) = true
    · refine List.mem_map.mpr ⟨(k, v), List.mem_map.mpr ⟨kv, hmem, by simp [hk]⟩, ?_⟩
      have hkk : kv.1 = k := beq_iff_eq.mp hk
      simp only []
      rw [← hfst, hkk]
    · refine List.mem_map.mpr ⟨kv, List.mem_map.mpr ⟨kv, hmem, by simp [hk]⟩, hfst⟩
  · rw [if_neg hh]
    simp only [List.map_append, List.mem_append]
    exact Or.inl h

theorem keys_foldl_mono (ts : List String) (fetch : String → TickerBundle) :
    ∀ (m : List (String × TickerBundle)) (k : String), k ∈ m.map Prod.fst →
    k ∈ (ts.foldl (fun m t => dictInsert m (pyUpper t) (fetch (pyUpper t))) m).map Prod.fst := by
  induction ts with
  | nil => intro m k h; exact h
  | cons hd tl ih =>
    intro m k h
    exact ih _ k (keys_dictInsert_mono m (pyUpper hd) k (fetch (pyUpper hd)) h)

theorem mem_keys_foldl (ts : List String) (fetch : String → TickerBundle) :
    ∀ (t : String), t ∈ ts → ∀ (m : List (String × TickerBundle)),
    pyUpper t ∈ (ts.foldl (fun m t => dictInsert m (pyUpper t) (fetch (pyUpper t))) m).map Prod.fst := by
  induction ts with
  | nil => intro t ht; simp at ht
  | cons hd tl ih =>
    intro t ht m
    rcases List.mem_cons.mp ht with h | h
    · subst h
      exact keys_foldl_mono tl fetch _ (pyUpper t)
        (keys_dictInsert_self m (pyUpper t) (fetch (pyUpper t)))
    · exact ih t h _

/-- Claim C8: `compare_stocks` returns the explanatory strings on fewer
than 2 or more than 5 symbols, never an exception (every embedded
operation is total); with 2 to 5 symbols the result is the
multi-section tabular report, which contains a row for every requested
symbol (uppercased); `get_val` substitutes `"Error"` for a category
whose fetch failed and `"N/A"` for an absent ticker, an absent field or
a `None` value. -/
theorem claim_C8 (tickers : List String) (fetch : String → TickerBundle)
    (fmts : CompareFmts) :
    (tickers.length < 2 →
      SimpleFinancialAgent.compare_stocks tickers fetch fmts
        = "Please provide at least 2 tickers to compare.")
    ∧ (5 < tickers.length →
      SimpleFinancialAgent.compare_stocks tickers fetch fmts
        = "Maximum 5 tickers allowed for comparison.")
    ∧ (2 ≤ tickers.length → tickers.length ≤ 5 →
      SimpleFinancialAgent.compare_stocks tickers fetch fmts
        = SimpleFinancialAgent.format_comparison
            (tickers.foldl (fun m t => dictInsert m (pyUpper t) (fetch (pyUpper t))) []) fmts
      ∧ ∀ t ∈ tickers,
        ("| " ++ pyUpper t ++ " | ").data
          <:+: (SimpleFinancialAgent.compare_stocks tickers fetch fmts).data)
    ∧ (∀ (all_data : List (String × TickerBundle)) (t k sk : String)
         (f : String → String) (tb : TickerBundle),
       (all_data.lookup t = none → get_val all_data t k sk f = "N/A")
       ∧ (all_data.lookup t = some tb → hasError (tb.catGet k) = true →
          get_val all_data t k sk f = "Error")
       ∧ (all_data.lookup t = some tb → hasError (tb.catGet k) = false →
          (tb.catGet k).lookup sk = none → get_val all_data t k sk f = "N/A")
       ∧ (all_data.lookup t = some tb → hasError (tb.catGet k) = false →
          (tb.catGet k).lookup sk = some none → get_val all_data t k sk f = "N/A")) := by
  refine ⟨?_, ?_, ?_, ?_⟩
  · intro h
    unfold SimpleFinancialAgent.compare_stocks
    rw [if_pos (by simp [h])]
  · intro h
    have h2 : ¬ tickers.length < 2 := by omega
    have hne : tickers.isEmpty = false := by
      cases tickers with
      | nil => simp at h
      | cons a b => rfl
    unfold SimpleFinancialAgent.compare_stocks
    rw [if_neg (by simp [hne, h2]), if_pos h]
  · intro h2 h5
    have hlt : ¬ tickers.length < 2 := by omega
    have hgt : ¬ 5 < tickers.length := by omega
    have hne : tickers.isEmpty = false := by
      cases tickers with
      | nil => simp at h2
      | cons a b => rfl
    have hform : SimpleFinancialAgent.compare_stocks tickers fetch fmts
        = SimpleFinancialAgent.format_comparison
            (tickers.foldl (fun m t => dictInsert m (pyUpper t) (fetch (pyUpper t))) []) fmts := by
      unfold SimpleFinancialAgent.compare_stocks
      rw [if_neg (by simp [hne, hlt]), if_neg hgt]
    refine ⟨hform, ?_⟩
    intro t ht
    rw [hform]
    have hkey : pyUpper t ∈ (tickers.foldl
        (fun m t => dictInsert m (pyUpper t) (fetch (pyUpper t))) []).map Prod.fst :=
      mem_keys_foldl tickers fetch t ht []
    have hrow : priceRow
        (tickers.foldl (fun m t => dictInsert m (pyUpper t) (fetch (pyUpper t))) []) fmts
        (pyUpper t)
        ∈ ((tickers.foldl (fun m t => dictInsert m (pyUpper t) (fetch (pyUpper t))) []).map
            Prod.fst).map (priceRow
              (tickers.foldl (fun m t => dictInsert m (pyUpper t) (fetch (pyUpper t))) []) fmts) :=
      List.mem_map_of_mem _ hkey
    have hpartmem : priceRow
        (tickers.foldl (fun m t => dictInsert m (pyUpper t) (fetch (pyUpper t))) []) fmts
        (pyUpper t)
        ∈ (["# 📊 Stock Comparison\n", "## 💰 Current Prices",
            "| Ticker | Price | Day Change | Volume |",
            "|--------|-------|------------|--------|"]
          ++ ((tickers.foldl (fun m t => dictInsert m (pyUpper t) (fetch (pyUpper t))) []).map
              Prod.fst).map (priceRow
                (tickers.foldl (fun m t => dictInsert m (pyUpper t) (fetch (pyUpper t))) [])
                fmts)
          ++ [""]
          ++ ["## 📈 Market Cap & Valuation",
              "| Ticker | Market Cap | P/E Ratio | 52-Week Range |",
              "|--------|------------|-----------|---------------|"]
          ++ ((tickers.foldl (fun m t => dictInsert m (pyUpper t) (fetch (pyUpper t))) []).map
              Prod.fst).map (valuationRow
                (tickers.foldl (fun m t => dictInsert m (pyUpper t) (fetch (pyUpper t))) [])
                fmts)
          ++ [""]
          ++ ["## 💼 Fundamentals",
              "| Ticker | Profit Margin | Revenue Growth | ROE | Debt/Equity |",
              "|--------|---------------|----------------|-----|-------------|"]
          ++ ((tickers.foldl (fun m t => dictInsert m (pyUpper t) (fetch (pyUpper t))) []).map
              Prod.fst).map (fundamentalsRow
                (tickers.foldl (fun m t => dictInsert m (pyUpper t) (fetch (pyUpper t))) [])
                fmts)
          ++ [""]
          ++ ["## 🎯 Analyst Recommendations",
              "| Ticker | Recommendation | Target Price | # Analysts |",
              "|--------|----------------|--------------|------------|"]
          ++ ((tickers.foldl (fun m t => dictInsert m (pyUpper t) (fetch (pyUpper t))) []).map
              Prod.fst).map (analystRow
                (tickers.foldl (fun m t => dictInsert m (pyUpper t) (fetch (pyUpper t))) [])
                fmts)
          ++ ["\n---", "*Data source: yfinance API (real-time)*"]) := by
      simp only [List.mem_append]
      tauto
    have hinf := mem_joinNL_infix _ _ hpartmem
    unfold SimpleFinancialAgent.format_comparison
    refine List.IsInfix.trans ?_ hinf
    unfold priceRow
    exact prefix_infix_append _ _
  · intro all_data t k sk f tb
    refine ⟨?_, ?_, ?_, ?_⟩
    · intro h
      simp [get_val, h]
    · intro h he
      simp [get_val, h, he]
    · intro h he hsk
      simp [get_val, h, he, hsk]
    · intro h he hsk
      simp [get_val, h, he, hsk]

/-- Concrete instantiation of claim C8: the two boundary strings and
the presence of both symbols in a 2-ticker comparison with one failing
category. -/
theorem claim_C8_witness :
    (SimpleFinancialAgent.compare_stocks ["AAPL"] (fun _ => .berr "x")
       ⟨id, id, id, id, id, id, id, id⟩ = "Please provide at least 2 tickers to compare.")
    ∧ (SimpleFinancialAgent.compare_stocks ["A", "B", "C", "D", "E", "F"]
        (fun _ => .berr "x") ⟨id, id, id, id, id, id, id, id⟩
        = "Maximum 5 tickers allowed for comparison.")
    ∧ ("| " ++ pyUpper "AAPL" ++ " | ").data
        <:+: (SimpleFinancialAgent.compare_stocks ["AAPL", "MSFT"]
          (fun _ => .bundle ⟨[("error", some "kaput")], [], [], []⟩)
          ⟨id, id, id, id, id, id, id, id⟩).data
    ∧ ("| " ++ pyUpper "MSFT" ++ " | ").data
        <:+: (SimpleFinancialAgent.compare_stocks ["AAPL", "MSFT"]
          (fun _ => .bundle ⟨[("error", some "kaput")], [], [], []⟩)
          ⟨id, id, id, id, id, id, id, id⟩).data
    ∧ get_val [("AAPL", .bundle ⟨[("error", some "kaput")], [], [], []⟩)]
        "AAPL" "stock" "current_price" id = "Error" :=
  ⟨(claim_C8 ["AAPL"] (fun _ => .berr "x") ⟨id, id, id, id, id, id, id, id⟩).1
     (by decide),
   (claim_C8 ["A", "B", "C", "D", "E", "F"] (fun _ => .berr "x")
     ⟨id, id, id, id, id, id, id, id⟩).2.1 (by decide),
   ((claim_C8 ["AAPL", "MSFT"] (fun _ => .bundle ⟨[("error", some "kaput")], [], [], []⟩)
     ⟨id, id, id, id, id, id, id, id⟩).2.2.1 (by decide) (by decide)).2 "AAPL"
     (by decide),
   ((claim_C8 ["AAPL", "MSFT"] (fun _ => .bundle ⟨[("error", some "kaput")], [], [], []⟩)
     ⟨id, id, id, id, id, id, id, id⟩).2.2.1 (by decide) (by decide)).2 "MSFT"
     (by decide),
   ((claim_C8 [] (fun _ => .berr "x") ⟨id, id, id, id, id, id, id, id⟩).2.2.2
     [("AAPL", .bundle ⟨[("error", some "kaput")], [], [], []⟩)]
     "AAPL" "stock" "current_price" id
     (.bundle ⟨[("error", some "kaput")], [], [], []⟩)).2.1 (by decide) (by decide)⟩

/-! ## `FinancialTools`: the four cached fetchers

Each fetcher checks its own cache key, calls yfinance inside `try`, and
on success stores and returns the built dict; any raise is caught and
an `{"error": str(e), "ticker": ticker}` marker (for news,
`[{"error": str(e)}]`) is returned WITHOUT being written to the cache.
Provider outcomes are parameters; field values are display-ready
strings (floats are outside the embedding); `timestamp`
(`datetime.now().isoformat()`) is rendered from the clock. -/

/-- `m.get(k)` with no default (`None` when absent). -/
def pyGetOpt (m : Rec) (k : String) : Option String := (m.lookup k).join

/-- `m.get(k, d)` kept as an optional value (`None` when present as
`None`). -/
def pyGetD (m : Rec) (k d : String) : Option String :=
  match m.lookup k with
  | none => some d
  | some v => v

/-- One row of `stock.history(period="1mo")` (`opn` stands for the
`Open` column; `open` is reserved in Lean). -/
structure Bar where
  opn : String
  high : String
  low : String
  close : String
  volume : String
deriving Repr, DecidableEq

/-- What yfinance returns for `get_stock_data`: `stock.info` and the
history rows. -/
structure StockRaw where
  info : Rec
  hist : List Bar
deriving Repr, DecidableEq

/-- The dict built by `get_stock_data` on success (`latest = hist.iloc[-1]`,
reachable only with a non-empty history). -/
def FinancialTools.mkStockData (ticker : String) (raw : StockRaw) (now : Nat) : Rec :=
  let latest := raw.hist.getLastD ⟨"", "", "", "", ""⟩
  [("ticker", some ticker),
   ("current_price", match raw.info.lookup "currentPrice" with
     | some v => v
     | none => some latest.close),
   ("open", some latest.opn),
   ("high", some latest.high),
   ("low", some latest.low),
   ("close", some latest.close),
   ("volume", some latest.volume),
   ("currency", match raw.info.lookup "currency" with
     | some v => v
     | none => some "USD"),
   ("market_cap", pyGetOpt raw.info "marketCap"),
   ("pe_ratio", pyGetOpt raw.info "trailingPE"),
   ("dividend_yield", pyGetOpt raw.info "dividendYield"),
   ("52_week_high", pyGetOpt raw.info "fiftyTwoWeekHigh"),
   ("52_week_low", pyGetOpt raw.info "fiftyTwoWeekLow"),
   ("timestamp", some (toString now))]

/-- `FinancialTools.get_stock_data`: cache check under `"stock_data"`,
then the provider call; an empty history raises `ValueError` inside the
`try`; only the successfully built dict is cached (TTL 300). -/
def FinancialTools.get_stock_data (st : CacheState Rec) (now : Nat) (ticker : String)
    (provider : Except String StockRaw)
    (rg : Except String (Option Rec)) (rs : Except String Unit) : Rec × CacheState Rec :=
  let key := CacheManager.generate_key "stock_data" (.str ticker)
  let res := CacheManager.get st now key rg
  match res.1 with
  | some cached => (cached, res.2)
  | none =>
    match provider with
    | .error e => ([("error", some e), ("ticker", some ticker)], res.2)
    | .ok raw =>
      if raw.hist.isEmpty then
        ([("error", some ("No data found for " ++ ticker)), ("ticker", some ticker)], res.2)
      else
        let data := FinancialTools.mkStockData ticker raw now
        (data, CacheManager.set res.2 now key data (some 300) rs)

/-- The dict built by `get_analyst_recommendations` on success. -/
def FinancialTools.mkAnalystData (ticker : String) (info : Rec) (now : Nat) : Rec :=
  [("ticker", some ticker),
   ("recommendation", match info.lookup "recommendationKey" with
     | some v => v
     | none => some "N/A"),
   ("mean_recommendation", pyGetOpt info "recommendationMean"),
   ("num_analysts", pyGetOpt info "numberOfAnalystOpinions"),
   ("target_mean", pyGetOpt info "targetMeanPrice"),
   ("target_high", pyGetOpt info "targetHighPrice"),
   ("target_low", pyGetOpt info "targetLowPrice"),
   ("timestamp", some (toString now))]

/-- `FinancialTools.get_analyst_recommendations` (TTL 3600). -/
def FinancialTools.get_analyst_recommendations (st : CacheState Rec) (now : Nat)
    (ticker : String) (provider : Except String Rec)
    (rg : Except String (Option Rec)) (rs : Except String Unit) : Rec × CacheState Rec :=
  let key := CacheManager.generate_key "analyst_recs" (.str ticker)
  let res := CacheManager.get st now key rg
  match res.1 with
  | some cached => (cached, res.2)
  | none =>
    match provider with
    | .error e => ([("error", some e), ("ticker", some ticker)], res.2)
    | .ok info =>
      let data := FinancialTools.mkAnalystData ticker info now
      (data, CacheManager.set res.2 now key data (some 3600) rs)

/-- The dict built by `get_fundamentals` on success. -/
def FinancialTools.mkFundamentals (ticker : String) (info : Rec) (now : Nat) : Rec :=
  [("ticker", some ticker),
   ("market_cap", pyGetOpt info "marketCap"),
   ("pe_ratio", pyGetOpt info "trailingPE"),
   ("forward_pe", pyGetOpt info "forwardPE"),
   ("peg_ratio", pyGetOpt info "pegRatio"),
   ("price_to_book", pyGetOpt info "priceToBook"),
   ("debt_to_equity", pyGetOpt info "debtToEquity"),
   ("return_on_equity", pyGetOpt info "returnOnEquity"),
   ("profit_margins", pyGetOpt info "profitMargins"),
   ("operating_margins", pyGetOpt info "operatingMargins"),
   ("revenue_growth", pyGetOpt info "revenueGrowth"),
   ("earnings_growth", pyGetOpt info "earningsGrowth"),
   ("timestamp", some (toString now))]

/-- `FinancialTools.get_fundamentals` (TTL 3600). -/
def FinancialTools.get_fundamentals (st : CacheState Rec) (now : Nat)
    (ticker : String) (provider : Except String Rec)
    (rg : Except String (Option Rec)) (rs : Except String Unit) : Rec × CacheState Rec :=
  let key := CacheManager.generate_key "fundamentals" (.str ticker)
  let res := CacheManager.get st now key rg
  match res.1 with
  | some cached => (cached, res.2)
  | none =>
    match provider with
    | .error e => ([("error", some e), ("ticker", some ticker)], res.2)
    | .ok info =>
      let data := FinancialTools.mkFundamentals ticker info now
      (data, CacheManager.set res.2 now key data (some 3600) rs)

/-- One formatted news item of `get_company_news`. -/
def FinancialTools.mkNewsItem (item : Rec) : Rec :=
  [("title", pyGetD item "title" ""),
   ("publisher", pyGetD item "publisher" ""),
   ("link", pyGetD item "link" ""),
   ("published", pyGetOpt item "providerPublishTime"),
   ("related_tickers", pyGetD item "relatedTickers" "[]")]

/-- `FinancialTools.get_company_news` (TTL 300): an empty cached list is
falsy under `if cached:`, so it does not short-circuit; a raise yields
`[{"error": str(e)}]`, not cached. -/
def FinancialTools.get_company_news (st : CacheState (List Rec)) (now : Nat)
    (ticker : String) (limit : Nat) (provider : Except String (List Rec))
    (rg : Except String (Option (List Rec))) (rs : Except String Unit) :
    List Rec × CacheState (List Rec) :=
  let key := CacheManager.generate_key "company_news"
    (.str (ticker ++ "_" ++ toString limit))
  let res := CacheManager.get st now key rg
  match res.1 with
  | some cached =>
    if cached.isEmpty then
      match provider with
      | .error e => ([[("error", some e)]], res.2)
      | .ok news_items =>
        let formatted := (news_items.take limit).map FinancialTools.mkNewsItem
        (formatted, CacheManager.set res.2 now key formatted (some 300) rs)
    else (cached, res.2)
  | none =>
    match provider with
    | .error e => ([[("error", some e)]], res.2)
    | .ok news_items =>
      let formatted := (news_items.take limit).map FinancialTools.mkNewsItem
      (formatted, CacheManager.set res.2 now key formatted (some 300) rs)

/-- Claim C10: on a cold cache key (local backend), a failing fetch
returns an error-marker result and writes nothing to the cache — so an
immediately following call with the same ticker consults the provider
again and, on success, returns (and caches) the freshly built data. The
conjuncts cover `get_stock_data` (raise and empty-history cases),
`get_analyst_recommendations`, `get_fundamentals` and
`get_company_news`. -/
theorem claim_C10 :
    (∀ (st : CacheState Rec) (now : Nat) (t emsg : String)
       (rg rg2 : Except String (Option Rec)) (rs rs2 : Except String Unit),
     st.redisConnected = false →
     st.localCache.lookup (CacheManager.generate_key "stock_data" (.str t)) = none →
     hasError (FinancialTools.get_stock_data st now t (.error emsg) rg rs).1 = true
     ∧ (FinancialTools.get_stock_data st now t (.error emsg) rg rs).2 = st
     ∧ (∀ (raw : StockRaw), raw.hist.isEmpty = false →
       (FinancialTools.get_stock_data
         (FinancialTools.get_stock_data st now t (.error emsg) rg rs).2
         now t (.ok raw) rg2 rs2).1 = FinancialTools.mkStockData t raw now
       ∧ (FinancialTools.get_stock_data
           (FinancialTools.get_stock_data st now t (.error emsg) rg rs).2
           now t (.ok raw) rg2 rs2).2.localCache.lookup
             (CacheManager.generate_key "stock_data" (.str t))
         = some ⟨FinancialTools.mkStockData t raw now, now + 300⟩))
    ∧ (∀ (st : CacheState Rec) (now : Nat) (t : String) (raw : StockRaw)
         (rg : Except String (Option Rec)) (rs : Except String Unit),
       st.redisConnected = false →
       st.localCache.lookup (CacheManager.generate_key "stock_data" (.str t)) = none →
       raw.hist.isEmpty = true →
       hasError (FinancialTools.get_stock_data st now t (.ok raw) rg rs).1 = true
       ∧ (FinancialTools.get_stock_data st now t (.ok raw) rg rs).2 = st)
    ∧ (∀ (st : CacheState Rec) (now : Nat) (t emsg : String) (info : Rec)
         (rg rg2 : Except String (Option Rec)) (rs rs2 : Except String Unit),
       st.redisConnected = false →
       st.localCache.lookup (CacheManager.generate_key "analyst_recs" (.str t)) = none →
       hasError (FinancialTools.get_analyst_recommendations st now t (.error emsg) rg rs).1 = true
       ∧ (FinancialTools.get_analyst_recommendations st now t (.error emsg) rg rs).2 = st
       ∧ (FinancialTools.get_analyst_recommendations
           (FinancialTools.get_analyst_recommendations st now t (.error emsg) rg rs).2
           now t (.ok info) rg2 rs2).1 = FinancialTools.mkAnalystData t info now)
    ∧ (∀ (st : CacheState Rec) (now : Nat) (t emsg : String) (info : Rec)
         (rg rg2 : Except String (Option Rec)) (rs rs2 : Except String Unit),
       st.redisConnected = false →
       st.localCache.lookup (CacheManager.generate_key "fundamentals" (.str t)) = none →
       hasError (FinancialTools.get_fundamentals st now t (.error emsg) rg rs).1 = true
       ∧ (FinancialTools.get_fundamentals st now t (.error emsg) rg rs).2 = st
       ∧ (FinancialTools.get_fundamentals
           (FinancialTools.get_fundamentals st now t (.error emsg) rg rs).2
           now t (.ok info) rg2 rs2).1 = FinancialTools.mkFundamentals t info now)
    ∧ (∀ (st : CacheState (List Rec)) (now : Nat) (t emsg : String) (limit : Nat)
         (items : List Rec)
         (rg rg2 : Except String (Option (List Rec))) (rs rs2 : Except String Unit),
       st.redisConnected = false →
       st.localCache.lookup (CacheManager.generate_key "company_news"
         (.str (t ++ "_" ++ toString limit))) = none →
       (FinancialTools.get_company_news st now t limit (.error emsg) rg rs).1
         = [[("error", some emsg)]]
       ∧ (FinancialTools.get_company_news st now t limit (.error emsg) rg rs).2 = st
       ∧ (FinancialTools.get_company_news
           (FinancialTools.get_company_news st now t limit (.error emsg) rg rs).2
           now t limit (.ok items) rg2 rs2).1
         = (items.take limit).map FinancialTools.mkNewsItem) := by
  refine ⟨?_, ?_, ?_, ?_, ?_⟩
  · intro st now t emsg rg rg2 rs rs2 hredis hcold
    have hg : CacheManager.get st now
        (CacheManager.generate_key "stock_data" (.str t)) rg = (none, st) := by
      simp [CacheManager.get, hredis, hcold]
    have herr : FinancialTools.get_stock_data st now t (.error emsg) rg rs
        = ([("error", some emsg), ("ticker", some t)], st) := by
      simp [FinancialTools.get_stock_data, hg]
    refine ⟨by simp [herr, hasError, List.lookup], by simp [herr], ?_⟩
    intro raw hne
    rw [herr]
    have hg2 : CacheManager.get st now
        (CacheManager.generate_key "stock_data" (.str t)) rg2 = (none, st) := by
      simp [CacheManager.get, hredis, hcold]
    constructor
    · simp [FinancialTools.get_stock_data, hg2, hne]
    · simp only [FinancialTools.get_stock_data, hg2]
      simp only [hne, Bool.false_eq_true, if_false]
      simp [CacheManager.set, hredis, lookup_dictInsert, CacheManager.effectiveTtl]
  · intro st now t raw rg rs hredis hcold hemp
    have hg : CacheManager.get st now
        (CacheManager.generate_key "stock_data" (.str t)) rg = (none, st) := by
      simp [CacheManager.get, hredis, hcold]
    constructor
    · simp [FinancialTools.get_stock_data, hg, hemp, hasError, List.lookup]
    · simp [FinancialTools.get_stock_data, hg, hemp]
  · intro st now t emsg info rg rg2 rs rs2 hredis hcold
    have hg : ∀ r, CacheManager.get st now
        (CacheManager.generate_key "analyst_recs" (.str t)) r = (none, st) := by
      intro r
      simp [CacheManager.get, hredis, hcold]
    have herr : FinancialTools.get_analyst_recommendations st now t (.error emsg) rg rs
        = ([("error", some emsg), ("ticker", some t)], st) := by
      simp [FinancialTools.get_analyst_recommendations, hg]
    refine ⟨by simp [herr, hasError, List.lookup], by simp [herr], ?_⟩
    rw [herr]
    simp [FinancialTools.get_analyst_recommendations, hg]
  · intro st now t emsg info rg rg2 rs rs2 hredis hcold
    have hg : ∀ r, CacheManager.get st now
        (CacheManager.generate_key "fundamentals" (.str t)) r = (none, st) := by
      intro r
      simp [CacheManager.get, hredis, hcold]
    have herr : FinancialTools.get_fundamentals st now t (.error emsg) rg rs
        = ([("error", some emsg), ("ticker", some t)], st) := by
      simp [FinancialTools.get_fundamentals, hg]
    refine ⟨by simp [herr, hasError, List.lookup], by simp [herr], ?_⟩
    rw [herr]
    simp [FinancialTools.get_fundamentals, hg]
  · intro st now t emsg limit items rg rg2 rs rs2 hredis hcold
    have hg : ∀ r, CacheManager.get st now
        (CacheManager.generate_key "company_news" (.str (t ++ "_" ++ toString limit))) r
        = (none, st) := by
      intro r
      simp [CacheManager.get, hredis, hcold]
    have herr : FinancialTools.get_company_news st now t limit (.error emsg) rg rs
        = ([[("error", some emsg)]], st) := by
      simp [FinancialTools.get_company_news, hg]
    refine ⟨by simp [herr], by simp [herr], ?_⟩
    rw [herr]
    simp [FinancialTools.get_company_news, hg]

/-- Concrete instantiation of claim C10 for `get_stock_data`: a failing
fetch for NVDA returns the error marker, leaves the cache unchanged,
and the retry returns fresh provider data. -/
theorem claim_C10_witness :
    hasError (FinancialTools.get_stock_data (CacheManager.init Rec false) 0 "NVDA"
      (.error "boom") (.ok none) (.ok ())).1 = true
    ∧ (FinancialTools.get_stock_data (CacheManager.init Rec false) 0 "NVDA"
      (.error "boom") (.ok none) (.ok ())).2 = CacheManager.init Rec false
    ∧ (FinancialTools.get_stock_data
        (FinancialTools.get_stock_data (CacheManager.init Rec false) 0 "NVDA"
          (.error "boom") (.ok none) (.ok ())).2 0 "NVDA"
        (.ok ⟨[], [⟨"1", "2", "3", "4", "5"⟩]⟩) (.ok none) (.ok ())).1
      = FinancialTools.mkStockData "NVDA" ⟨[], [⟨"1", "2", "3", "4", "5"⟩]⟩ 0 :=
  ⟨((claim_C10.1 (CacheManager.init Rec false) 0 "NVDA" "boom" (.ok none) (.ok none)
      (.ok ()) (.ok ())) rfl (by decide)).1,
   ((claim_C10.1 (CacheManager.init Rec false) 0 "NVDA" "boom" (.ok none) (.ok none)
      (.ok ()) (.ok ())) rfl (by decide)).2.1,
   (((claim_C10.1 (CacheManager.init Rec false) 0 "NVDA" "boom" (.ok none) (.ok none)
      (.ok ()) (.ok ())) rfl (by decide)).2.2 ⟨[], [⟨"1", "2", "3", "4", "5"⟩]⟩
      (by decide)).1⟩
